import Mathlib

set_option maxHeartbeats 1000000

/- Shallow embedding of the mcp_senpex repository.
   Part 1 models src/agent-core/main.py: the in-memory session store, the
   tool-execution log, rule-based intent classification, the regex-based
   argument extraction and the process-message orchestrator.
   Part 2 models src/mcp.py: the thirteen Senpex delivery MCP tools.
   Machine strings are Lean String (a list of characters); timestamps are
   opaque Nat values supplied by the caller (datetime.now is an oracle);
   uuid4 identifiers are supplied as oracle parameters. -/

/-! ## String utilities (embedding of Python `in`, `lower`) -/

/-- ASCII lower-casing of one character, the model of what `str.lower`
does on the ASCII range used by the intent keywords. -/
def lowerChar (c : Char) : Char :=
  if 'A' ≤ c ∧ c ≤ 'Z' then Char.ofNat (c.toNat + 32) else c

/-- Model of Python `message.lower()` on ASCII text. -/
def strLower (s : String) : String := String.mk (s.data.map lowerChar)

/-- Does `l` start with `n`? -/
def listStartsWith : List Char → List Char → Bool
  | [], _ => true
  | _ :: _, [] => false
  | a :: as, b :: bs => a == b && listStartsWith as bs

/-- Does `hay` contain `needle` as a contiguous run?  Model of Python
`needle in hay` for strings. -/
def listHasSub (needle : List Char) : List Char → Bool
  | [] => needle.isEmpty
  | c :: t => listStartsWith needle (c :: t) || listHasSub needle t

/-- Python `needle in hay` on strings. -/
def strHasSub (hay needle : String) : Bool := listHasSub needle.data hay.data

/-! ## Data model of src/agent-core/main.py -/

/-- One transcript entry: `{"role": ..., "content": ..., "timestamp": ...}`
(main.py lines 191-195 and 242-246). -/
structure Message where
  role : String
  content : String
  timestamp : Nat
deriving DecidableEq, Repr

/-- One session record as stored in the `sessions` dict
(main.py lines 74-80). -/
structure Session where
  user_id : String
  created_at : Nat
  messages : List Message
  message_count : Nat
  last_activity : Nat
deriving DecidableEq, Repr

/-- One entry of the `tool_logs` list (main.py lines 86-93).
Arguments are the string-valued mapping built by the orchestrator. -/
structure ToolLogEntry where
  id : String
  tool_name : String
  arguments : List (String × String)
  result : String
  timestamp : Nat
  session_id : String
deriving DecidableEq, Repr

/-- The request model `MessageRequest` (main.py lines 40-43). -/
structure MessageRequest where
  message : String
  session_id : Option String
  user_id : String
deriving DecidableEq, Repr

/-- The response model `MessageResponse` (main.py lines 46-50). -/
structure MessageResponse where
  response : String
  session_id : String
  tool_calls : Option (List ToolLogEntry)
  timestamp : Nat
deriving DecidableEq, Repr

/-- The response model `SessionInfo` (main.py lines 53-58). -/
structure SessionInfo where
  session_id : String
  user_id : String
  created_at : Nat
  message_count : Nat
  last_activity : Nat
deriving DecidableEq, Repr

/-- A FastAPI `HTTPException` as raised by the endpoints. -/
structure HTTPError where
  status : Nat
  detail : String
deriving DecidableEq, Repr

/-- The process-wide mutable state of main.py: the `sessions` dict (an
insertion-ordered association list, as a CPython dict is) and the
`tool_logs` list. -/
structure AgentState where
  sessions : List (String × Session)
  tool_logs : List ToolLogEntry
deriving DecidableEq, Repr

/-- Dict lookup `sessions[k]` / `k in sessions`. -/
def getKey (k : String) : List (String × Session) → Option Session
  | [] => none
  | (k', v) :: t => if k' = k then some v else getKey k t

/-- Dict assignment `sessions[k] = v`: overwrite in place, or append a new
key at the end (CPython insertion order). -/
def setKey (k : String) (v : Session) : List (String × Session) → List (String × Session)
  | [] => [(k, v)]
  | (k', v') :: t => if k' = k then (k, v) :: t else (k', v') :: setKey k v t

/-! ## Helper functions of main.py -/

/-- `create_session` (main.py lines 71-81): allocate a fresh identifier
(the uuid4 value is the oracle argument `newId`) and store an empty
session. -/
def create_session (newId : String) (user_id : String) (now : Nat)
    (st : AgentState) : String × AgentState :=
  (newId, { st with sessions := setKey newId ⟨user_id, now, [], 0, now⟩ st.sessions })

/-- `log_tool_execution` (main.py lines 84-95): append an immutable record
to `tool_logs` and return it. -/
def log_tool_execution (logId : String) (now : Nat) (session_id tool_name : String)
    (arguments : List (String × String)) (result : String)
    (st : AgentState) : ToolLogEntry × AgentState :=
  let log_entry : ToolLogEntry := ⟨logId, tool_name, arguments, result, now, session_id⟩
  (log_entry, { st with tool_logs := st.tool_logs ++ [log_entry] })

/-- The intent result dictionary of `analyze_intent`.  The float
confidence literals 0.8 / 0.9 / 0.5 are modelled as exact rationals. -/
structure IntentResult where
  intent : String
  tool : Option String
  confidence : ℚ
deriving DecidableEq

/-- Quote/price keywords (main.py line 123). -/
def quoteKeywords : List String := ["quote", "price", "cost", "how much"]

/-- Track keywords (main.py line 131). -/
def trackKeywords : List String := ["track", "status", "where is"]

/-- Greeting/test keywords (main.py line 139). -/
def pingKeywords : List String := ["ping", "test", "hello"]

/-- `analyze_intent` (main.py lines 118-150): deterministic keyword rules
over the lower-cased message, evaluated in the listed order. -/
def analyze_intent (message : String) : IntentResult :=
  let message_lower := strLower message
  if quoteKeywords.any (fun w => strHasSub message_lower w) then
    ⟨"get_quote", some "get_dropoff_quote", (8 : ℚ)/10⟩
  else if trackKeywords.any (fun w => strHasSub message_lower w) then
    ⟨"track_order", some "track_order", (8 : ℚ)/10⟩
  else if pingKeywords.any (fun w => strHasSub message_lower w) then
    ⟨"test", some "ping", (9 : ℚ)/10⟩
  else
    ⟨"general", none, (5 : ℚ)/10⟩

/-! ## The order-id extraction regex (main.py lines 222-226)

`re.search(r'\b\d{5,}\b', message)`: the leftmost run of five or more
consecutive digits that is delimited on both sides by a word boundary.
A word character for `\b` is a letter, a digit or an underscore (the
ASCII behaviour; the messages handled here are ASCII). -/

/-- `\w` of the `re` module, ASCII range. -/
def isWordChar (c : Char) : Bool := c.isAlphanum || c == '_'

/-- One left-to-right scan implementing `re.search(r'\b\d{5,}\b', ·)`.
`prevW` records whether the character just before the current run is a
word character (no `\b` can fall inside a digit run, so a match starts
exactly at the start of a maximal digit run whose predecessor is not a
word character, and ends at its end when the successor is not a word
character). `run` is the digit run accumulated so far. -/
def searchAux : Bool → List Char → List Char → Option (List Char)
  | prevW, run, [] => if ¬prevW ∧ 5 ≤ run.length then some run else none
  | prevW, run, c :: cs =>
    if c.isDigit then
      searchAux prevW (run ++ [c]) cs
    else if ¬prevW ∧ 5 ≤ run.length ∧ ¬isWordChar c then
      some run
    else
      searchAux (isWordChar c) [] cs

/-- `order_match.group() if order_match else "12345"`
(main.py lines 223-226). -/
def extractTrackOrderId (message : String) : String :=
  match searchAux false [] message.data with
  | some run => String.mk run
  | none => "12345"

/-- Modelled from the spec wording of the claim under test: the first
maximal run of five or more consecutive digits in the text, with no word
boundary requirement on either side.  Used only to compare the claimed
behaviour with the implemented one. -/
def firstDigitRunSpec : List Char → List Char → Option (List Char)
  | run, [] => if 5 ≤ run.length then some run else none
  | run, c :: cs =>
    if c.isDigit then
      firstDigitRunSpec (run ++ [c]) cs
    else if 5 ≤ run.length then
      some run
    else
      firstDigitRunSpec [] cs

/-- Modelled from the amended claim's words: the maximal runs of
consecutive digits of the text, in order, each with two flags telling
whether the character just before, respectively just after, the run is a
word character (the start and the end of the text count as non-word).
`prevW` carries the flag for the upcoming run and `run` the digits
accumulated so far. -/
def digitRunsAux : Bool → List Char → List Char → List (Bool × List Char × Bool)
  | prevW, run, [] => if run.isEmpty then [] else [(prevW, run, false)]
  | prevW, run, c :: cs =>
    if c.isDigit then
      digitRunsAux prevW (run ++ [c]) cs
    else if run.isEmpty then
      digitRunsAux (isWordChar c) [] cs
    else
      (prevW, run, isWordChar c) :: digitRunsAux (isWordChar c) [] cs

/-- A maximal digit run of length at least five that is delimited on
both sides by word boundaries. -/
def isDelimitedRun (t : Bool × List Char × Bool) : Bool :=
  !t.1 && decide (5 ≤ t.2.1.length) && !t.2.2

/-- Modelled from the amended claim's words: the first maximal run of
five or more consecutive digits delimited on both sides by word
boundaries, if any such run exists. -/
def firstDelimitedRun (l : List Char) : Option (List Char) :=
  ((digitRunsAux false [] l).find? isDelimitedRun).map (fun t => t.2.1)

/-- The per-tool argument extraction inlined in `process_message`
(main.py lines 209-228). -/
def extractArguments (tool_name : String) (message : String) : List (String × String) :=
  if tool_name = "ping" then []
  else if tool_name = "get_dropoff_quote" then
    [("user_email", "demo@example.com"),
     ("pickup_addr", "123 Market St, San Francisco, CA"),
     ("dropoff_addr", "456 Main St, Los Angeles, CA"),
     ("recipient_name", "John Doe"),
     ("recipient_phone", "+1234567890")]
  else if tool_name = "track_order" then
    [("order_id", extractTrackOrderId message)]
  else []

/-! ## The orchestrator endpoint `process_message` (main.py lines 174-253)

Oracle parameters: `freshSid` is the uuid4 a created session would get,
`logId` the uuid4 of a tool-log record, `now` the clock, and `mcpResult`
the outcome of `call_mcp_tool` (which never raises: main.py lines 98-115
absorb every exception into an error string, so it is a total function
from tool name and arguments to result text). -/
def process_message (freshSid logId : String) (now : Nat)
    (mcpResult : String → List (String × String) → String)
    (req : MessageRequest) (st : AgentState) :
    Except HTTPError (MessageResponse × AgentState) :=
  -- session_id = request.session_id or create_session(request.user_id):
  -- Python `or` takes the right operand when the left is None or "".
  let resolved : String × AgentState :=
    match req.session_id with
    | some sid => if sid = "" then create_session freshSid req.user_id now st else (sid, st)
    | none => create_session freshSid req.user_id now st
  let session_id := resolved.1
  let st1 := resolved.2
  match getKey session_id st1.sessions with
  | none => .error ⟨404, "Session not found"⟩
  | some session0 =>
    -- update session: bump activity, bump count, append the user message
    let session1 : Session :=
      { session0 with
        last_activity := now,
        message_count := session0.message_count + 1,
        messages := session0.messages ++ [⟨"user", req.message, now⟩] }
    let stUser : AgentState := { st1 with sessions := setKey session_id session1 st1.sessions }
    let intent_analysis := analyze_intent req.message
    match intent_analysis.tool with
    | some tool_name =>
      let arguments := extractArguments tool_name req.message
      let tool_result := mcpResult tool_name arguments
      let logged := log_tool_execution logId now session_id tool_name arguments tool_result stUser
      let response_text := tool_result
      let session2 : Session :=
        { session1 with messages := session1.messages ++ [⟨"assistant", response_text, now⟩] }
      let stFinal : AgentState :=
        { logged.2 with sessions := setKey session_id session2 logged.2.sessions }
      .ok (⟨response_text, session_id, some [logged.1], now⟩, stFinal)
    | none =>
      let response_text :=
        "I understand you\x27re asking about: " ++ req.message ++
        ". How can I help you with delivery services?"
      let session2 : Session :=
        { session1 with messages := session1.messages ++ [⟨"assistant", response_text, now⟩] }
      let stFinal : AgentState :=
        { stUser with sessions := setKey session_id session2 stUser.sessions }
      .ok (⟨response_text, session_id, none, now⟩, stFinal)

/-- `get_session` (main.py lines 256-269). -/
def get_session (session_id : String) (st : AgentState) : Except HTTPError SessionInfo :=
  match getKey session_id st.sessions with
  | none => .error ⟨404, "Session not found"⟩
  | some s => .ok ⟨session_id, s.user_id, s.created_at, s.message_count, s.last_activity⟩

/-- Python `l[start:]` for an arbitrary integer `start`: a negative start
counts from the end and clamps at zero. -/
def pySliceFrom {α : Type} (l : List α) (start : Int) : List α :=
  if 0 ≤ start then l.drop start.toNat
  else l.drop (l.length - (-start).toNat)

/-- `get_tool_logs` (main.py lines 289-295): returns the total count and
`tool_logs[-limit:]`. -/
def get_tool_logs (limit : Int) (st : AgentState) : Nat × List ToolLogEntry :=
  (st.tool_logs.length, pySliceFrom st.tool_logs (-limit))

/-- Iterated calls of the process-message operation on one fixed session
identifier, one call per entry of `msgs` (the harness used to state the
per-session transcript invariants).  A NotFound outcome stops the run. -/
def runMessages (sid : String) (now : Nat)
    (mcpResult : String → List (String × String) → String)
    (st : AgentState) : List String → AgentState
  | [] => st
  | m :: ms =>
    match process_message "unused-fresh-id" "log-id" now mcpResult ⟨m, some sid, "anonymous"⟩ st with
    | .ok r => runMessages sid now mcpResult r.2 ms
    | .error _ => st

/-! ## Part 2: the Senpex MCP server, src/mcp.py

Upstream interaction model: each tool issues at most one HTTP request.
The outcome oracle `net` yields either a parsed 2xx JSON body (the
upstream responses are JSON objects, spec §6), an `httpx.HTTPStatusError`
raised by `raise_for_status` carrying the status code and body text, or
any other transport exception (timeout, DNS failure, JSON parse failure)
carrying its message.  The returned list of requests records every
network call the tool attempted. -/

/-- A JSON value; numbers are modelled as exact rationals. -/
inductive Json where
  | null
  | bool (b : Bool)
  | num (q : ℚ)
  | str (s : String)
  | arr (xs : List Json)
  | obj (fields : List (String × Json))
deriving Repr

/-- Display of a number, the model of Python `str` on numbers coming from
parsed JSON (display details of floats are not load-bearing anywhere). -/
def ratDisplay (q : ℚ) : String :=
  if q.den = 1 then toString q.num else toString q.num ++ "/" ++ toString q.den

mutual
/-- Python `repr` of a parsed-JSON value (used inside containers). -/
def pyRepr : Json → String
  | .null => "None"
  | .bool b => if b then "True" else "False"
  | .num q => ratDisplay q
  | .str s => "\x27" ++ s ++ "\x27"
  | .arr xs => "[" ++ pyReprList xs ++ "]"
  | .obj fs => "\x7b" ++ pyReprFields fs ++ "\x7d"

/-- Comma-joined reprs of the elements of a list. -/
def pyReprList : List Json → String
  | [] => ""
  | [x] => pyRepr x
  | x :: xs => pyRepr x ++ ", " ++ pyReprList xs

/-- Comma-joined `'key': value` reprs of the fields of a dict. -/
def pyReprFields : List (String × Json) → String
  | [] => ""
  | [(k, v)] => "\x27" ++ k ++ "\x27: " ++ pyRepr v
  | (k, v) :: fs => "\x27" ++ k ++ "\x27: " ++ pyRepr v ++ ", " ++ pyReprFields fs
end

/-- Python `str` of a parsed-JSON value, as interpolated by an f-string. -/
def pyStr : Json → String
  | .str s => s
  | j => pyRepr j

/-- Lookup of a key in a JSON object's field list. -/
def lookupJ (k : String) : List (String × Json) → Option Json
  | [] => none
  | (k', v) :: t => if k' = k then some v else lookupJ k t

/-- Python `k in d` for a dict. -/
def hasKeyJ (k : String) (fs : List (String × Json)) : Bool := (lookupJ k fs).isSome

/-- `d[k]` with a null placeholder for use after a `k in d` test. -/
def getD0 (data : List (String × Json)) (k : String) : Json := (lookupJ k data).getD Json.null

/-- Python `j.get(k)` on a dict value.  A non-dict value would raise
AttributeError in Python and be absorbed by the tool's `except` clause;
here such a value is modelled as having no fields. -/
def jget (j : Json) (k : String) : Option Json :=
  match j with
  | .obj fs => lookupJ k fs
  | _ => none

/-- Python `j.get(k, d)`. -/
def jgetD (j : Json) (k : String) (d : Json) : Json := (jget j k).getD d

/-- Python truthiness of a parsed-JSON value. -/
def pyTruthy : Json → Bool
  | .null => false
  | .bool b => b
  | .num q => if q = 0 then false else true
  | .str s => if s = "" then false else true
  | .arr xs => if xs.isEmpty then false else true
  | .obj fs => if fs.isEmpty then false else true

/-- `data.get("code") == "0"`: the upstream business-success test. -/
def codeIsZero (data : List (String × Json)) : Bool :=
  match lookupJ "code" data with
  | some (.str s) => s == "0"
  | _ => false

/-- `value == n` where `value` came out of parsed JSON and `n` is an int
literal of the source (Python counts `True == 1` as equal). -/
def jsonEqNum (j : Json) (n : ℚ) : Bool :=
  match j with
  | .num q => q == n
  | .bool b => (if b then (1 : ℚ) else 0) == n
  | _ => false

/-- Iteration over a parsed-JSON value.  Python iteration over a non-list
would raise (absorbed by the `except` clause); modelled as empty. -/
def jsonItems : Json → List Json
  | .arr xs => xs
  | _ => []

/-- Digits of a numeric string as a number. -/
def digitsVal (l : List Char) : Nat := l.foldl (fun n c => n * 10 + (c.toNat - 48)) 0

/-- Python `float(s)` on a well-formed decimal string; a malformed string
raises in Python (absorbed by the `except` clause) and is modelled as 0. -/
def parseDec (s : String) : ℚ :=
  let l := s.data
  let sign : ℚ := match l with | '-' :: _ => -1 | _ => 1
  let l := match l with | '-' :: t => t | _ => l
  let ip := l.takeWhile (fun c => c.isDigit)
  let rest := l.dropWhile (fun c => c.isDigit)
  let fp := match rest with | '.' :: t => t.takeWhile (fun c => c.isDigit) | _ => []
  sign * ((digitsVal ip : ℚ) + (digitsVal fp : ℚ) / ((10 : ℚ) ^ fp.length))

/-- Python `float(v)` on a parsed-JSON value. -/
def pyFloat (j : Json) : ℚ :=
  match j with
  | .num q => q
  | .str s => parseDec s
  | .bool b => if b then 1 else 0
  | _ => 0

/-- Python `int(q)`: truncation toward zero. -/
def pyInt (q : ℚ) : Int := if 0 ≤ q then ⌊q⌋ else -⌊-q⌋

/-- `if k in d: r += pre + str(d[k]) + post` over a top-level dict. -/
def addIfKey (data : List (String × Json)) (k pre post : String) (r : String) : String :=
  match lookupJ k data with
  | some v => r ++ pre ++ pyStr v ++ post
  | none => r

/-- `if k in j: r += pre + str(j[k]) + post` over a nested dict value. -/
def addIfKeyJ (j : Json) (k pre post : String) (r : String) : String :=
  match jget j k with
  | some v => r ++ pre ++ pyStr v ++ post
  | none => r

/-- A fold with a 1-based index, the model of `enumerate(xs, 1)`. -/
def enumFold (f : Nat → Json → String) (i : Nat) : List Json → String
  | [] => ""
  | x :: t => f i x ++ enumFold f (i + 1) t

/-- Lookup in a string-valued dict argument. -/
def lookupS (k : String) : List (String × String) → Option String
  | [] => none
  | (k', v) :: t => if k' = k then some v else lookupS k t

/-- Python `d.get(k, "")` on a string-valued dict argument. -/
def getSD (d : List (String × String)) (k : String) : String := (lookupS k d).getD ""

/-- `if cond: body[k] = v` — conditional insertion of one body field. -/
def optField (cond : Prop) [Decidable cond] (k : String) (v : Json) : List (String × Json) :=
  if cond then [(k, v)] else []

/-- The two credential environment values (empty string = unset). -/
structure Creds where
  client : String
  secret : String

/-- One HTTP request as issued by a tool. -/
structure HttpRequest where
  method : String
  url : String
  headers : List (String × String)
  body : Option (List (String × Json))

/-- Outcome of one upstream HTTP call. -/
inductive HttpOutcome where
  | success (status : Nat) (data : List (String × Json))
  | httpError (status : Nat) (text : String)
  | exn (msg : String)

/-- `SENPEX_API_BASE` (mcp.py line 14). -/
def SENPEX_API_BASE : String := "https://api.sandbox.senpex.com/api/restfull/v4"

/-- The union of all declared tool arguments; each tool reads the fields
of its own signature. -/
structure ToolInputs where
  user_email : String
  user_name : String
  pickup_addr : String
  dropoff_addr : String
  recipient_name : String
  recipient_phone : String
  order_name : String
  transport_id : Int
  pack_size_id : Int
  item_value : ℚ
  taken_asap : Int
  payment_type : Int
  order_desc : String
  pickup_instructions : String
  dropoff_instructions : String
  dropoff_recipient_name : String
  dropoff_recipient_phone : String
  pickup_addresses : List (List (String × String))
  schedule_date_local : String
  show_one_price : Int
  promo_code : String
  api_token : String
  tip_amount : ℚ
  sender_name : String
  sender_cell : String
  sender_desc : String
  snpx_user_email : Int
  snpx_order_email : Int
  snpx_order_not : Int
  search_courier : Int
  pickup_updates : Option (List (List (String × String)))
  start : Int
  route_id : String
  order_id : String
  access_key : String

/-! ## Response formatting per tool (the success / business-failure split) -/

/-- Success/raw formatting of `get_dropoff_quote` (mcp.py lines 94-114):
keyed on the presence of a `"data"` field, not on the `"code"` field. -/
def formatDropoffQuote (order_name pickup_addr dropoff_addr : String)
    (data : List (String × Json)) : String :=
  match lookupJ "data" data with
  | some quote_data =>
    let r := "Senpex Delivery Quote:\nOrder: " ++ order_name ++ "\nPickup: " ++
      pickup_addr ++ "\nDropoff: " ++ dropoff_addr ++ "\n\n"
    let r := addIfKeyJ quote_data "price" "Price: $" "\n" r
    let r := addIfKeyJ quote_data "distance" "Distance: " " miles\n" r
    let r := addIfKeyJ quote_data "duration" "Estimated Duration: " " mins\n" r
    addIfKeyJ quote_data "token" "Quote Token: " "\n" r
  | none => "Quote response: " ++ pyStr (Json.obj data)

/-- `data.get("order_discount", 0) > 0` (mcp.py line 246). -/
def discountPos (data : List (String × Json)) : Bool :=
  match lookupJ "order_discount" data with
  | some (.num q) => decide (0 < q)
  | some _ => false
  | none => false

/-- One line of the pickup-routes listing (mcp.py lines 264-268). -/
def pickupRouteLine (i : Nat) (route : Json) : String :=
  "  " ++ toString i ++ ". " ++ pyStr (jgetD route "route_to_text" Json.null) ++ "\n" ++
  "     Recipient: " ++ pyStr (jgetD route "route_rec_name" Json.null) ++ " (" ++
    pyStr (jgetD route "route_rec_phone" Json.null) ++ ")\n" ++
  (if pyTruthy (jgetD route "route_distance" Json.null) then
    "     Distance: " ++ pyStr (jgetD route "route_distance" Json.null) ++ " miles\n"
   else "")

/-- Success/raw formatting of `get_pickup_quote` (mcp.py lines 236-272). -/
def formatPickupQuote (order_name dropoff_addr : String) (nroutes : Nat)
    (data : List (String × Json)) : String :=
  if codeIsZero data then
    let r := "Senpex Pickup Quote:\nOrder: " ++ order_name ++ "\nDropoff: " ++
      dropoff_addr ++ "\nPickup Locations: " ++ toString nroutes ++ "\n\n"
    let r := addIfKey data "order_price" "Price: $" "\n" r
    let r := if hasKeyJ "original_order_price" data && discountPos data then
        r ++ "Original Price: $" ++ pyStr (getD0 data "original_order_price") ++ "\n" ++
        "Discount: $" ++ pyStr (getD0 data "order_discount") ++ "\n"
      else r
    let r := addIfKey data "distance_miles" "Distance: " " miles\n" r
    let r := match lookupJ "distance_time_seconds" data with
      | some v => r ++ "Estimated Duration: " ++ pyStr v ++ " seconds (" ++
          toString (pyInt (pyFloat v / 60)) ++ " minutes)\n"
      | none => r
    let r := addIfKey data "tariff_duration_mins" "Tariff Duration: " " minutes\n" r
    let r := match lookupJ "api_token" data with
      | some v => r ++ "\nAPI Token: " ++ pyStr v ++ "\n" ++
          "Token Expires In: " ++ pyStr ((lookupJ "expire_mins" data).getD (Json.num 60)) ++
          " minutes\n"
      | none => r
    let r := if hasKeyJ "promo_code_info" data && pyTruthy (getD0 data "promo_code_info") then
        r ++ "Promo Code Applied: " ++ pyStr (getD0 data "promo_code_info") ++ "\n"
      else r
    let r := match lookupJ "routes_json" data with
      | some v => r ++ "\nPickup Routes:\n" ++ enumFold pickupRouteLine 1 (jsonItems v)
      | none => r
    r
  else
    "Quote response: " ++ pyStr (Json.obj data)

/-- Success/raw formatting of `confirm_dropoff` (mcp.py lines 371-392). -/
def formatConfirmDropoff (tip_amount : ℚ) (search_courier : Int)
    (data : List (String × Json)) : String :=
  if codeIsZero data then
    let r := "Order Confirmed Successfully!\n\n"
    let r := addIfKey data "inserted_id" "Order ID: " "\n" r
    let r := addIfKey data "distance" "Distance: " " miles\n" r
    let r := match lookupJ "distance_time" data with
      | some v => r ++ "Estimated Time: " ++ pyStr v ++ " seconds (" ++
          toString (pyInt (pyFloat v / 60)) ++ " minutes)\n"
      | none => r
    let r := if 0 < tip_amount then r ++ "Tip Added: $" ++ ratDisplay tip_amount ++ "\n" else r
    r ++ "\nYour order has been created and " ++
      (if search_courier = 1 then "the system is now searching for a courier."
       else "is waiting for manual courier assignment.")
  else "Order creation response: " ++ pyStr (Json.obj data)

/-- Success/raw formatting of `confirm_pickup` (mcp.py lines 494-515). -/
def formatConfirmPickup (tip_amount : ℚ) (search_courier : Int)
    (data : List (String × Json)) : String :=
  if codeIsZero data then
    let r := "Pickup Order Confirmed Successfully!\n\n"
    let r := addIfKey data "inserted_id" "Order ID: " "\n" r
    let r := addIfKey data "distance" "Total Distance: " " miles\n" r
    let r := match lookupJ "distance_time" data with
      | some v => r ++ "Estimated Time: " ++ pyStr v ++ " seconds (" ++
          toString (pyInt (pyFloat v / 60)) ++ " minutes)\n"
      | none => r
    let r := if 0 < tip_amount then r ++ "Tip Added: $" ++ ratDisplay tip_amount ++ "\n" else r
    r ++ "\nYour pickup order has been created and " ++
      (if search_courier = 1 then "the system is now searching for a courier."
       else "is waiting for manual courier assignment.")
  else "Order creation response: " ++ pyStr (Json.obj data)

/-- One order of the order-list output (mcp.py lines 556-567). -/
def orderLine (order : Json) : String :=
  "Order ID: " ++ pyStr (jgetD order "id" Json.null) ++ "\n" ++
  "  Name: " ++ pyStr (jgetD order "order_name" Json.null) ++ "\n" ++
  "  Status: " ++ pyStr (jgetD order "order_status_text" Json.null) ++ " (ID: " ++
    pyStr (jgetD order "pack_status" Json.null) ++ ")\n" ++
  "  From: " ++ pyStr (jgetD order "pack_from_text" Json.null) ++ "\n" ++
  "  To: " ++ pyStr (jgetD order "last_pack_to_text" Json.null) ++ "\n" ++
  "  Recipient: " ++ pyStr (jgetD order "last_receiver_name" Json.null) ++ " (" ++
    pyStr (jgetD order "last_receiver_phone_number" Json.null) ++ ")\n" ++
  "  Price: $" ++ pyStr (jgetD order "pack_price" Json.null) ++ "\n" ++
  "  Distance: " ++ pyStr (jgetD order "distance_miles" Json.null) ++ " miles\n" ++
  (if pyTruthy (jgetD order "courier_name" Json.null) then
    "  Courier: " ++ pyStr (jgetD order "courier_name" Json.null) ++ " " ++
    pyStr (jgetD order "courier_surname" Json.null) ++ " (" ++
    pyStr (jgetD order "courier_cell" Json.null) ++ ")\n"
   else "") ++ "\n"

/-- Success/raw formatting of `get_order_list` (mcp.py lines 550-571). -/
def formatOrderList (start : Int) (data : List (String × Json)) : String :=
  if codeIsZero data && hasKeyJ "data" data then
    let orders := getD0 data "data"
    if ¬pyTruthy orders then "No orders found."
    else "Orders List (starting from row " ++ toString start ++ "):\n\n" ++
      (jsonItems orders).foldl (fun r o => r ++ orderLine o) ""
  else "Response: " ++ pyStr (Json.obj data)

/-- One route of the route-details output (mcp.py lines 610-620). -/
def routeLine (route : Json) : String :=
  "Address: " ++ pyStr (jgetD route "route_to_text" Json.null) ++ "\n" ++
  "Location: (" ++ pyStr (jgetD route "route_to_lat" Json.null) ++ ", " ++
    pyStr (jgetD route "route_to_lng" Json.null) ++ ")\n" ++
  "Recipient: " ++ pyStr (jgetD route "rec_name" Json.null) ++ "\n" ++
  "Phone: " ++ pyStr (jgetD route "rec_phone" Json.null) ++ "\n" ++
  "Status: " ++ pyStr (jgetD route "route_status" Json.null) ++ "\n" ++
  "Distance: " ++ pyStr (jgetD route "route_distance" Json.null) ++ " miles\n" ++
  "Travel Time: " ++ pyStr (jgetD route "route_distance_time" Json.null) ++ " seconds\n" ++
  (if pyTruthy (jgetD route "route_delivery_date" Json.null) then
    "Delivery Date: " ++ pyStr (jgetD route "route_delivery_date" Json.null) ++ "\n"
   else "") ++ "\n"

/-- Success/raw formatting of `get_route_details` (mcp.py lines 604-624). -/
def formatRouteDetails (route_id : String) (data : List (String × Json)) : String :=
  if codeIsZero data && hasKeyJ "data" data then
    let routes := getD0 data "data"
    if ¬pyTruthy routes then "No route details found."
    else "Route Details (ID: " ++ route_id ++ "):\n\n" ++
      (jsonItems routes).foldl (fun r x => r ++ routeLine x) ""
  else "Response: " ++ pyStr (Json.obj data)

/-- One route of the order-by-token output (mcp.py lines 682-684). -/
def tokenRouteLine (i : Nat) (route : Json) : String :=
  "  " ++ toString i ++ ". " ++ pyStr (jgetD route "route_to_text" Json.null) ++ "\n" ++
  "     Recipient: " ++ pyStr (jgetD route "rec_name" Json.null) ++ " (" ++
    pyStr (jgetD route "rec_phone" Json.null) ++ ")\n"

/-- Success/raw formatting of `get_order_by_token` (mcp.py lines 657-688). -/
def formatOrderByToken (api_token : String) (data : List (String × Json)) : String :=
  if codeIsZero data && hasKeyJ "data" data then
    let orders := getD0 data "data"
    if ¬pyTruthy orders then "No order found with this token."
    else
      match jsonItems orders with
      | [] => ""
      | order :: _ =>
        "Order Details (Token: " ++ api_token ++ "):\n\n" ++
        "Order ID: " ++ pyStr (jgetD order "pack_id" Json.null) ++ "\n" ++
        "Order Name: " ++ pyStr (jgetD order "order_name" Json.null) ++ "\n" ++
        "Price: $" ++ pyStr (jgetD order "order_price" Json.null) ++ "\n" ++
        "Original Price: $" ++ pyStr (jgetD order "original_order_price" Json.null) ++ "\n" ++
        "Discount: $" ++ pyStr (jgetD order "order_discount" Json.null) ++ "\n" ++
        "Tariff: " ++ pyStr (jgetD order "tariff_name" Json.null) ++ " - " ++
          pyStr (jgetD order "tariff_desc" Json.null) ++ "\n" ++
        "From: " ++ pyStr (jgetD order "pack_from_text" Json.null) ++ "\n" ++
        "Distance: " ++ pyStr (jgetD order "distance_miles" Json.null) ++ " miles\n" ++
        "Duration: " ++ pyStr (jgetD order "distance_time_seconds" Json.null) ++ " seconds\n" ++
        "Route Count: " ++ pyStr (jgetD order "route_count" Json.null) ++ "\n" ++
        "Package Size: " ++ pyStr (jgetD order "pack_size_id" Json.null) ++ "\n" ++
        "Transport: " ++ pyStr (jgetD order "transport_id" Json.null) ++ "\n" ++
        "Item Value: $" ++ pyStr (jgetD order "item_value" Json.null) ++ "\n" ++
        "Schedule Date: " ++ pyStr (jgetD order "schedule_date" Json.null) ++ "\n" ++
        "Expires: " ++ pyStr (jgetD order "expires_date" Json.null) ++ "\n" ++
        (if pyTruthy (jgetD order "routes_json" Json.null) then
          "\nRoutes:\n" ++ enumFold tokenRouteLine 1 (jsonItems (jgetD order "routes_json" (Json.arr [])))
         else "")
  else "Response: " ++ pyStr (Json.obj data)

/-- One tracking item (mcp.py lines 727-748, identical in both track
tools). -/
def trackItemLine (item : Json) : String :=
  "Delivery ID: " ++ pyStr (jgetD item "id" Json.null) ++ "\n" ++
  "Address: " ++ pyStr (jgetD item "rec_address" Json.null) ++ "\n" ++
  "Recipient: " ++ pyStr (jgetD item "rec_name" Json.null) ++ "\n" ++
  "Phone: " ++ pyStr (jgetD item "rec_phone" Json.null) ++ "\n" ++
  "Pack Status: " ++ pyStr (jgetD item "pack_status" Json.null) ++ "\n" ++
  "Route Status: " ++ pyStr (jgetD item "route_status" Json.null) ++ "\n" ++
  (if pyTruthy (jgetD item "courier_name" Json.null) then
    "\nCourier Information:\n" ++
    "  Name: " ++ pyStr (jgetD item "courier_name" Json.null) ++ " " ++
      pyStr (jgetD item "courier_surname" Json.null) ++ "\n" ++
    "  Phone: " ++ pyStr (jgetD item "courier_cell" Json.null) ++ "\n"
   else "") ++
  (if pyTruthy (jgetD item "last_lat" Json.null) && pyTruthy (jgetD item "last_lng" Json.null) then
    "\nLast Known Location:\n" ++
    "  Coordinates: (" ++ pyStr (jgetD item "last_lat" Json.null) ++ ", " ++
      pyStr (jgetD item "last_lng" Json.null) ++ ")\n" ++
    "  Updated: " ++ pyStr (jgetD item "last_location_date" Json.null) ++ "\n"
   else "") ++
  (if pyTruthy (jgetD item "tracking_code" Json.null) then
    "\nTracking Code: " ++ pyStr (jgetD item "tracking_code" Json.null) ++ "\n"
   else "") ++ "\n"

/-- Success/raw formatting of the two tracking tools (mcp.py lines
721-752 and 785-816), parameterised by the heading line. -/
def formatTracking (headline : String) (data : List (String × Json)) : String :=
  if codeIsZero data && hasKeyJ "data" data then
    let items := getD0 data "data"
    if ¬pyTruthy items then "No tracking information found."
    else headline ++ (jsonItems items).foldl (fun r x => r ++ trackItemLine x) ""
  else "Response: " ++ pyStr (Json.obj data)

/-- Success/raw formatting of `get_driver_location` (mcp.py lines
851-903). -/
def formatDriverLocation (order_id : String) (data : List (String × Json)) : String :=
  if codeIsZero data then
    let dd := (lookupJ "data" data).getD Json.null
    if ¬pyTruthy dd then "No driver assigned to order " ++ order_id ++ " yet."
    else
      let r := "Driver Details for Order " ++ order_id ++ ":\n\n"
      let r := addIfKeyJ dd "pack_status" "Package Status: " "\n" r
      let r := addIfKeyJ dd "order_status" "Order Status: " "\n" r
      let r := r ++ "\n"
      let r := if pyTruthy (jgetD dd "courier_name" Json.null) ||
                  pyTruthy (jgetD dd "courier_surname" Json.null) then
          r ++ "Driver: " ++ pyStr (jgetD dd "courier_name" (Json.str "")) ++ " " ++
          pyStr (jgetD dd "courier_surname" (Json.str "")) ++ "\n"
        else r
      let r := if pyTruthy (jgetD dd "courier_phone_number" Json.null) then
          r ++ "Phone: " ++ pyStr (jgetD dd "courier_phone_number" Json.null) ++ "\n"
        else r
      let r := r ++ "\n"
      let r := if pyTruthy (jgetD dd "last_lat" Json.null) &&
                  pyTruthy (jgetD dd "last_lng" Json.null) then
          r ++ "Current Location:\n" ++
          "  GPS Coordinates: (" ++ pyStr (jgetD dd "last_lat" Json.null) ++ ", " ++
            pyStr (jgetD dd "last_lng" Json.null) ++ ")\n" ++
          (if pyTruthy (jgetD dd "last_timezone" Json.null) then
            "  Timezone: " ++ pyStr (jgetD dd "last_timezone" Json.null) ++ "\n" else "") ++
          (if pyTruthy (jgetD dd "last_location_date" Json.null) then
            "  Location Updated: " ++ pyStr (jgetD dd "last_location_date" Json.null) ++ " (UTC)\n"
           else "") ++
          (if pyTruthy (jgetD dd "last_seen_date" Json.null) then
            "  Last Seen: " ++ pyStr (jgetD dd "last_seen_date" Json.null) ++ " (UTC)\n" else "")
        else r ++ "Location: Not available yet\n"
      let r := r ++ "\n"
      let r := r ++ "Notification Settings:\n" ++
        "  Email: " ++ (if jsonEqNum (jgetD dd "snpx_email" Json.null) 1 then "Enabled" else "Disabled") ++ "\n" ++
        "  Push Notifications: " ++ (if jsonEqNum (jgetD dd "snpx_nots" Json.null) 1 then "Enabled" else "Disabled") ++ "\n" ++
        "  SMS: " ++ (if jsonEqNum (jgetD dd "snpx_sms" Json.null) 1 then "Enabled" else "Disabled") ++ "\n" ++
        "  Instant Notifications: " ++ (if jsonEqNum (jgetD dd "snpx_instant_not" Json.null) 1 then "Enabled" else "Disabled") ++ "\n"
      if pyTruthy (jgetD dd "instant_not_url" Json.null) then
        r ++ "  Instant Notification URL: " ++ pyStr (jgetD dd "instant_not_url" Json.null) ++ "\n"
      else r
  else "Response: " ++ pyStr (Json.obj data)

/-- Success/raw formatting of the three status-transition tools
(mcp.py lines 942-948, 986-992, 1030-1036), parameterised by the
tool-specific success message. -/
def formatSetReady (okMsg : String) (data : List (String × Json)) : String :=
  if codeIsZero data then
    if jsonEqNum ((lookupJ "inserted_id" data).getD Json.null) (-1) then okMsg
    else "Order status updated. Response: " ++ pyStr (Json.obj data)
  else "Error response: " ++ pyStr (Json.obj data)

/-! ## The thirteen tools of src/mcp.py -/

/-- `get_dropoff_quote` (mcp.py lines 18-119). -/
def get_dropoff_quote (c : Creds) (inp : ToolInputs)
    (net : HttpRequest → HttpOutcome) : String × List HttpRequest :=
  if c.client = "" ∨ c.secret = "" then
    ("Error: Senpex API credentials not configured. Please set SENPEX_CLIENT_ID and SENPEX_SECRET_ID environment variables.", [])
  else
    let url := SENPEX_API_BASE ++ "/orders/dropoff/quote"
    let headers := [("clientid", c.client), ("secretid", c.secret),
                    ("Country", "US"), ("Content-Type", "application/json")]
    let body : List (String × Json) :=
      [("email", Json.str inp.user_email),
       ("order_name", Json.str inp.order_name),
       ("pack_from_text", Json.str inp.pickup_addr),
       ("transport_id", Json.num inp.transport_id),
       ("item_value", Json.num inp.item_value),
       ("pack_size_id", Json.num inp.pack_size_id),
       ("taken_asap", Json.num inp.taken_asap),
       ("payment_type", Json.num inp.payment_type),
       ("order_desc", Json.str inp.order_desc),
       ("route_desc", Json.str inp.pickup_instructions),
       ("routes", Json.arr [Json.obj
         [("route_to_text", Json.str inp.dropoff_addr),
          ("route_desc", Json.str inp.dropoff_instructions),
          ("rec_name", Json.str inp.recipient_name),
          ("rec_phone", Json.str inp.recipient_phone)]])]
    let req : HttpRequest := ⟨"POST", url, headers, some body⟩
    let result := match net req with
      | .success _ data => formatDropoffQuote inp.order_name inp.pickup_addr inp.dropoff_addr data
      | .httpError code text => "Error: HTTP " ++ toString code ++ " - " ++ text
      | .exn msg => "Error getting quote: " ++ msg
    (result, [req])

/-- `get_pickup_quote` (mcp.py lines 121-277). -/
def get_pickup_quote (c : Creds) (inp : ToolInputs)
    (net : HttpRequest → HttpOutcome) : String × List HttpRequest :=
  if c.client = "" ∨ c.secret = "" then
    ("Error: Senpex API credentials not configured. Please set SENPEX_CLIENT_ID and SENPEX_SECRET_ID environment variables.", [])
  else if inp.taken_asap = 0 ∧ inp.schedule_date_local = "" then
    ("Error: schedule_date_local is required when taken_asap=0 (scheduled delivery)", [])
  else if inp.pickup_addresses.isEmpty then
    ("Error: At least one pickup address is required", [])
  else
    let url := SENPEX_API_BASE ++ "/orders/pickup/quote"
    let headers := [("clientid", c.client), ("secretid", c.secret),
                    ("Country", "US"), ("Content-Type", "application/json")]
    let routes : List Json := inp.pickup_addresses.map (fun p => Json.obj
      [("route_to_text", Json.str (getSD p "route_to_text")),
       ("rec_name", Json.str (getSD p "rec_name")),
       ("rec_phone", Json.str (getSD p "rec_phone")),
       ("route_desc", Json.str (getSD p "route_desc"))])
    let body : List (String × Json) :=
      [("email", Json.str inp.user_email),
       ("order_name", Json.str inp.order_name),
       ("transport_id", Json.num inp.transport_id),
       ("item_value", Json.num inp.item_value),
       ("pack_size_id", Json.num inp.pack_size_id),
       ("taken_asap", Json.num inp.taken_asap),
       ("order_desc", Json.str inp.order_desc),
       ("route_desc", Json.str inp.dropoff_instructions),
       ("rec_name", Json.str inp.dropoff_recipient_name),
       ("rec_phone", Json.str inp.dropoff_recipient_phone),
       ("routes", Json.arr routes),
       ("show_one_price", Json.num inp.show_one_price)] ++
      optField (inp.schedule_date_local ≠ "") "schedule_date_local" (Json.str inp.schedule_date_local) ++
      optField (inp.promo_code ≠ "") "promo_code" (Json.str inp.promo_code)
    let req : HttpRequest := ⟨"POST", url, headers, some body⟩
    let result := match net req with
      | .success _ data => formatPickupQuote inp.order_name inp.dropoff_addr routes.length data
      | .httpError code text => "Error: HTTP " ++ toString code ++ " - " ++ text
      | .exn msg => "Error getting pickup quote: " ++ msg
    (result, [req])

/-- `confirm_dropoff` (mcp.py lines 279-397). -/
def confirm_dropoff (c : Creds) (inp : ToolInputs)
    (net : HttpRequest → HttpOutcome) : String × List HttpRequest :=
  if c.client = "" ∨ c.secret = "" then
    ("Error: Senpex API credentials not configured.", [])
  else
    let url := SENPEX_API_BASE ++ "/orders/dropoff"
    let headers := [("clientid", c.client), ("secretid", c.secret),
                    ("Content-Type", "application/json")]
    let body : List (String × Json) :=
      [("api_token", Json.str inp.api_token),
       ("email", Json.str inp.user_email),
       ("payment_type", Json.num inp.payment_type),
       ("tip_amount", Json.num inp.tip_amount),
       ("snpx_user_email", Json.num inp.snpx_user_email),
       ("snpx_order_email", Json.num inp.snpx_order_email),
       ("snpx_order_not", Json.num inp.snpx_order_not),
       ("search_courier", Json.num inp.search_courier)] ++
      optField (inp.sender_name ≠ "") "sender_name" (Json.str inp.sender_name) ++
      optField (inp.sender_cell ≠ "") "sender_cell" (Json.str inp.sender_cell) ++
      optField (inp.sender_desc ≠ "") "sender_desc" (Json.str inp.sender_desc) ++
      optField (inp.order_desc ≠ "") "order_desc" (Json.str inp.order_desc) ++
      (if inp.recipient_name ≠ "" ∨ inp.recipient_phone ≠ "" then
        let route_update :=
          optField (inp.recipient_name ≠ "") "rec_name" (Json.str inp.recipient_name) ++
          optField (inp.recipient_phone ≠ "") "rec_phone" (Json.str inp.recipient_phone)
        if route_update.isEmpty then []
        else [("routes", Json.arr [Json.obj route_update])]
      else [])
    let req : HttpRequest := ⟨"PUT", url, headers, some body⟩
    let result := match net req with
      | .success _ data => formatConfirmDropoff inp.tip_amount inp.search_courier data
      | .httpError code text => "Error: HTTP " ++ toString code ++ " - " ++ text
      | .exn msg => "Error confirming order: " ++ msg
    (result, [req])

/-- The routes-update block of `confirm_pickup` (mcp.py lines 474-486):
an update entry contributes its rec_name / rec_phone field whenever the
KEY is present (even with an empty value); entries with neither key are
dropped, and the routes field is produced only when at least one entry
survives and pickup_updates is present and non-empty. -/
def pickupRoutesOpt (pickup_updates : Option (List (List (String × String)))) :
    List (String × Json) :=
  match pickup_updates with
  | some updates =>
    if updates.isEmpty then []
    else
      let routes := updates.filterMap (fun u =>
        let route_update :=
          (match lookupS "rec_name" u with
           | some v => [("rec_name", Json.str v)]
           | none => []) ++
          (match lookupS "rec_phone" u with
           | some v => [("rec_phone", Json.str v)]
           | none => [])
        if route_update.isEmpty then none else some (Json.obj route_update))
      if routes.isEmpty then [] else [("routes", Json.arr routes)]
  | none => []

/-- `confirm_pickup` (mcp.py lines 399-520). -/
def confirm_pickup (c : Creds) (inp : ToolInputs)
    (net : HttpRequest → HttpOutcome) : String × List HttpRequest :=
  if c.client = "" ∨ c.secret = "" then
    ("Error: Senpex API credentials not configured.", [])
  else
    let url := SENPEX_API_BASE ++ "/orders/pickup"
    let headers := [("clientid", c.client), ("secretid", c.secret),
                    ("Content-Type", "application/json")]
    let routesOpt : List (String × Json) := pickupRoutesOpt inp.pickup_updates
    let body : List (String × Json) :=
      [("api_token", Json.str inp.api_token),
       ("email", Json.str inp.user_email),
       ("tip_amount", Json.num inp.tip_amount),
       ("snpx_user_email", Json.num inp.snpx_user_email),
       ("snpx_order_email", Json.num inp.snpx_order_email),
       ("snpx_order_not", Json.num inp.snpx_order_not),
       ("search_courier", Json.num inp.search_courier)] ++
      optField (inp.sender_name ≠ "") "sender_name" (Json.str inp.sender_name) ++
      optField (inp.sender_cell ≠ "") "sender_cell" (Json.str inp.sender_cell) ++
      optField (inp.sender_desc ≠ "") "sender_desc" (Json.str inp.sender_desc) ++
      optField (inp.order_desc ≠ "") "order_desc" (Json.str inp.order_desc) ++
      routesOpt
    let req : HttpRequest := ⟨"PUT", url, headers, some body⟩
    let result := match net req with
      | .success _ data => formatConfirmPickup inp.tip_amount inp.search_courier data
      | .httpError code text => "Error: HTTP " ++ toString code ++ " - " ++ text
      | .exn msg => "Error confirming pickup order: " ++ msg
    (result, [req])

/-- `get_order_list` (mcp.py lines 522-576). -/
def get_order_list (c : Creds) (inp : ToolInputs)
    (net : HttpRequest → HttpOutcome) : String × List HttpRequest :=
  if c.client = "" ∨ c.secret = "" then
    ("Error: Senpex API credentials not configured.", [])
  else
    let url := SENPEX_API_BASE ++ "/order-list" ++
      (if 0 < inp.start then "?start=" ++ toString inp.start else "")
    let headers := [("clientid", c.client), ("secretid", c.secret)]
    let req : HttpRequest := ⟨"GET", url, headers, none⟩
    let result := match net req with
      | .success _ data => formatOrderList inp.start data
      | .httpError code text => "Error: HTTP " ++ toString code ++ " - " ++ text
      | .exn msg => "Error getting order list: " ++ msg
    (result, [req])

/-- `get_route_details` (mcp.py lines 578-629). -/
def get_route_details (c : Creds) (inp : ToolInputs)
    (net : HttpRequest → HttpOutcome) : String × List HttpRequest :=
  if c.client = "" ∨ c.secret = "" then
    ("Error: Senpex API credentials not configured.", [])
  else
    let url := SENPEX_API_BASE ++ "/orders/routes/" ++ inp.route_id
    let headers := [("clientid", c.client), ("secretid", c.secret)]
    let req : HttpRequest := ⟨"GET", url, headers, none⟩
    let result := match net req with
      | .success _ data => formatRouteDetails inp.route_id data
      | .httpError code text => "Error: HTTP " ++ toString code ++ " - " ++ text
      | .exn msg => "Error getting route details: " ++ msg
    (result, [req])

/-- `get_order_by_token` (mcp.py lines 631-693). -/
def get_order_by_token (c : Creds) (inp : ToolInputs)
    (net : HttpRequest → HttpOutcome) : String × List HttpRequest :=
  if c.client = "" ∨ c.secret = "" then
    ("Error: Senpex API credentials not configured.", [])
  else
    let url := SENPEX_API_BASE ++ "/orders/tokens/" ++ inp.api_token
    let headers := [("clientid", c.client), ("secretid", c.secret)]
    let req : HttpRequest := ⟨"GET", url, headers, none⟩
    let result := match net req with
      | .success _ data => formatOrderByToken inp.api_token data
      | .httpError code text => "Error: HTTP " ++ toString code ++ " - " ++ text
      | .exn msg => "Error getting order by token: " ++ msg
    (result, [req])

/-- `track_order_by_id` (mcp.py lines 695-757). -/
def track_order_by_id (c : Creds) (inp : ToolInputs)
    (net : HttpRequest → HttpOutcome) : String × List HttpRequest :=
  if c.client = "" ∨ c.secret = "" then
    ("Error: Senpex API credentials not configured.", [])
  else
    let url := SENPEX_API_BASE ++ "/points/dropoff/track/" ++ inp.order_id
    let headers := [("clientid", c.client), ("secretid", c.secret)]
    let req : HttpRequest := ⟨"GET", url, headers, none⟩
    let result := match net req with
      | .success _ data => formatTracking ("Order Tracking (ID: " ++ inp.order_id ++ "):\n\n") data
      | .httpError code text => "Error: HTTP " ++ toString code ++ " - " ++ text
      | .exn msg => "Error tracking order: " ++ msg
    (result, [req])

/-- `track_order_by_access_key` (mcp.py lines 759-821). -/
def track_order_by_access_key (c : Creds) (inp : ToolInputs)
    (net : HttpRequest → HttpOutcome) : String × List HttpRequest :=
  if c.client = "" ∨ c.secret = "" then
    ("Error: Senpex API credentials not configured.", [])
  else
    let url := SENPEX_API_BASE ++ "/points/dropoff/track/access_key/" ++ inp.access_key
    let headers := [("clientid", c.client), ("secretid", c.secret)]
    let req : HttpRequest := ⟨"GET", url, headers, none⟩
    let result := match net req with
      | .success _ data => formatTracking ("Order Tracking (Access Key: " ++ inp.access_key ++ "):\n\n") data
      | .httpError code text => "Error: HTTP " ++ toString code ++ " - " ++ text
      | .exn msg => "Error tracking order: " ++ msg
    (result, [req])

/-- `get_driver_location` (mcp.py lines 823-908). -/
def get_driver_location (c : Creds) (inp : ToolInputs)
    (net : HttpRequest → HttpOutcome) : String × List HttpRequest :=
  if c.client = "" ∨ c.secret = "" then
    ("Error: Senpex API credentials not configured.", [])
  else
    let url := SENPEX_API_BASE ++ "/orders/" ++ inp.order_id ++ "/driver-location/"
    let headers := [("clientid", c.client), ("secretid", c.secret)]
    let req : HttpRequest := ⟨"GET", url, headers, none⟩
    let result := match net req with
      | .success _ data => formatDriverLocation inp.order_id data
      | .httpError code text => "Error: HTTP " ++ toString code ++ " - " ++ text
      | .exn msg => "Error getting driver location: " ++ msg
    (result, [req])

/-- `set_delivery_ready` (mcp.py lines 910-953). -/
def set_delivery_ready (c : Creds) (inp : ToolInputs)
    (net : HttpRequest → HttpOutcome) : String × List HttpRequest :=
  if c.client = "" ∨ c.secret = "" then
    ("Error: Senpex API credentials not configured.", [])
  else
    let url := SENPEX_API_BASE ++ "/points/dropoff-delivery-ready"
    let headers := [("clientid", c.client), ("secretid", c.secret),
                    ("Content-Type", "application/json")]
    let req : HttpRequest := ⟨"PUT", url, headers, some [("id", Json.str inp.order_id)]⟩
    let result := match net req with
      | .success _ data => formatSetReady ("Success: Order " ++ inp.order_id ++ " marked as ready for delivery.") data
      | .httpError code text => "Error: HTTP " ++ toString code ++ " - " ++ text
      | .exn msg => "Error setting delivery ready: " ++ msg
    (result, [req])

/-- `set_laboratory_ready` (mcp.py lines 955-997). -/
def set_laboratory_ready (c : Creds) (inp : ToolInputs)
    (net : HttpRequest → HttpOutcome) : String × List HttpRequest :=
  if c.client = "" ∨ c.secret = "" then
    ("Error: Senpex API credentials not configured.", [])
  else
    let url := SENPEX_API_BASE ++ "/points/dropoff-laboratory-ready"
    let headers := [("clientid", c.client), ("secretid", c.secret),
                    ("Content-Type", "application/json")]
    let req : HttpRequest := ⟨"PUT", url, headers, some [("id", Json.str inp.order_id)]⟩
    let result := match net req with
      | .success _ data => formatSetReady ("Success: Order " ++ inp.order_id ++ " marked as ready for pick-up from laboratory.") data
      | .httpError code text => "Error: HTTP " ++ toString code ++ " - " ++ text
      | .exn msg => "Error setting laboratory ready: " ++ msg
    (result, [req])

/-- `set_dropoff_received` (mcp.py lines 999-1041). -/
def set_dropoff_received (c : Creds) (inp : ToolInputs)
    (net : HttpRequest → HttpOutcome) : String × List HttpRequest :=
  if c.client = "" ∨ c.secret = "" then
    ("Error: Senpex API credentials not configured.", [])
  else
    let url := SENPEX_API_BASE ++ "/points/dropoff-received"
    let headers := [("clientid", c.client), ("secretid", c.secret),
                    ("Content-Type", "application/json")]
    let req : HttpRequest := ⟨"PUT", url, headers, some [("id", Json.str inp.order_id)]⟩
    let result := match net req with
      | .success _ data => formatSetReady ("Success: Order " ++ inp.order_id ++ " marked as received at drop-off location.") data
      | .httpError code text => "Error: HTTP " ++ toString code ++ " - " ++ text
      | .exn msg => "Error setting dropoff received: " ++ msg
    (result, [req])

/-- The catalog of delivery tools registered on the MCP server. -/
inductive DeliveryTool where
  | getDropoffQuote
  | getPickupQuote
  | confirmDropoff
  | confirmPickup
  | getOrderList
  | getRouteDetails
  | getOrderByToken
  | trackOrderById
  | trackOrderByAccessKey
  | getDriverLocation
  | setDeliveryReady
  | setLaboratoryReady
  | setDropoffReceived
deriving DecidableEq, Repr

/-- Uniform dispatcher over the tool catalog. -/
def invokeTool : DeliveryTool → Creds → ToolInputs → (HttpRequest → HttpOutcome) →
    String × List HttpRequest
  | .getDropoffQuote => get_dropoff_quote
  | .getPickupQuote => get_pickup_quote
  | .confirmDropoff => confirm_dropoff
  | .confirmPickup => confirm_pickup
  | .getOrderList => get_order_list
  | .getRouteDetails => get_route_details
  | .getOrderByToken => get_order_by_token
  | .trackOrderById => track_order_by_id
  | .trackOrderByAccessKey => track_order_by_access_key
  | .getDriverLocation => get_driver_location
  | .setDeliveryReady => set_delivery_ready
  | .setLaboratoryReady => set_laboratory_ready
  | .setDropoffReceived => set_dropoff_received

/-- The `except Exception` message head of each tool's catch-all clause. -/
def exnMsgHead : DeliveryTool → String
  | .getDropoffQuote => "Error getting quote: "
  | .getPickupQuote => "Error getting pickup quote: "
  | .confirmDropoff => "Error confirming order: "
  | .confirmPickup => "Error confirming pickup order: "
  | .getOrderList => "Error getting order list: "
  | .getRouteDetails => "Error getting route details: "
  | .getOrderByToken => "Error getting order by token: "
  | .trackOrderById => "Error tracking order: "
  | .trackOrderByAccessKey => "Error tracking order: "
  | .getDriverLocation => "Error getting driver location: "
  | .setDeliveryReady => "Error setting delivery ready: "
  | .setLaboratoryReady => "Error setting laboratory ready: "
  | .setDropoffReceived => "Error setting dropoff received: "

/-- The head of the raw-surfacing branch each tool takes when the
upstream business code is not the success sentinel. -/
def rawHead : DeliveryTool → String
  | .getDropoffQuote => "Quote response: "
  | .getPickupQuote => "Quote response: "
  | .confirmDropoff => "Order creation response: "
  | .confirmPickup => "Order creation response: "
  | .getOrderList => "Response: "
  | .getRouteDetails => "Response: "
  | .getOrderByToken => "Response: "
  | .trackOrderById => "Response: "
  | .trackOrderByAccessKey => "Response: "
  | .getDriverLocation => "Response: "
  | .setDeliveryReady => "Error response: "
  | .setLaboratoryReady => "Error response: "
  | .setDropoffReceived => "Error response: "

/-- Fixed inputs for concrete evaluations: the demo-extraction defaults of
the orchestrator and the declared defaults of the tool signatures. -/
def inp0 : ToolInputs where
  user_email := "demo@example.com"
  user_name := ""
  pickup_addr := "123 Market St, San Francisco, CA"
  dropoff_addr := "456 Main St, Los Angeles, CA"
  recipient_name := "Recipient"
  recipient_phone := "+1234567890"
  order_name := "Delivery Order"
  transport_id := 1
  pack_size_id := 1
  item_value := 100
  taken_asap := 1
  payment_type := 5
  order_desc := "Package delivery"
  pickup_instructions := ""
  dropoff_instructions := ""
  dropoff_recipient_name := ""
  dropoff_recipient_phone := ""
  pickup_addresses := []
  schedule_date_local := ""
  show_one_price := 0
  promo_code := ""
  api_token := "tok"
  tip_amount := 0
  sender_name := ""
  sender_cell := ""
  sender_desc := ""
  snpx_user_email := 0
  snpx_order_email := 1
  snpx_order_not := 1
  search_courier := 1
  pickup_updates := none
  start := 0
  route_id := "r1"
  order_id := "55555"
  access_key := "ak"

/-- A concrete tool-log record for concrete evaluations. -/
def logEntry0 : ToolLogEntry := ⟨"log-0", "ping", [], "pong", 0, "sess-0"⟩

/-! ## Helper lemmas -/

theorem getKey_setKey_self (k : String) (v : Session) (l : List (String × Session)) :
    getKey k (setKey k v l) = some v := by
  induction l with
  | nil => simp [setKey, getKey]
  | cons h t ih =>
    obtain ⟨k', v'⟩ := h
    by_cases hk : k' = k
    · simp [setKey, getKey, hk]
    · simp [setKey, getKey, hk, ih]

theorem listStartsWith_append (n : List Char) : ∀ (l m : List Char),
    listStartsWith n l = true → listStartsWith n (l ++ m) = true := by
  induction n with
  | nil => intro l m _; simp [listStartsWith]
  | cons a as ih =>
    intro l m h
    cases l with
    | nil => simp [listStartsWith] at h
    | cons b bs =>
      simp only [listStartsWith, Bool.and_eq_true, beq_iff_eq] at h
      simp only [List.cons_append, listStartsWith, Bool.and_eq_true, beq_iff_eq]
      exact ⟨h.1, ih bs m h.2⟩

theorem listHasSub_of_startsWith (n l : List Char) (h : listStartsWith n l = true) :
    listHasSub n l = true := by
  cases l with
  | nil =>
    cases n with
    | nil => simp [listHasSub]
    | cons a as => simp [listStartsWith] at h
  | cons c t => simp [listHasSub, h]

theorem listHasSub_append_right (n : List Char) : ∀ (a b : List Char),
    listHasSub n a = true → listHasSub n (a ++ b) = true := by
  intro a
  induction a with
  | nil =>
    intro b h
    simp only [listHasSub, List.isEmpty_iff] at h
    subst h
    cases b with
    | nil => simp [listHasSub]
    | cons c t => simp [listHasSub, listStartsWith]
  | cons c t ih =>
    intro b h
    simp only [listHasSub, Bool.or_eq_true] at h
    rcases h with h | h
    · simp only [List.cons_append, listHasSub, Bool.or_eq_true]
      exact Or.inl (listStartsWith_append _ _ _ h)
    · simp only [List.cons_append, listHasSub, Bool.or_eq_true]
      exact Or.inr (ih b h)

theorem strHasSub_append_left (a b sub : String) (h : strHasSub a sub = true) :
    strHasSub (a ++ b) sub = true := by
  unfold strHasSub at *
  have hd : (a ++ b).data = a.data ++ b.data := by
    cases a; cases b; rfl
  rw [hd]
  exact listHasSub_append_right _ _ _ h

theorem searchAux_sound : ∀ (l run : List Char) (prevW : Bool) (res : List Char),
    searchAux prevW run l = some res → run.all Char.isDigit = true →
    5 ≤ res.length ∧ res.all Char.isDigit = true ∧
      ∃ pre post, run ++ l = pre ++ res ++ post := by
  intro l
  induction l with
  | nil =>
    intro run prevW res h hall
    unfold searchAux at h
    split at h
    · rename_i hcond
      injection h with h
      subst h
      exact ⟨hcond.2, hall, ⟨[], [], by simp⟩⟩
    · exact absurd h (by simp)
  | cons c cs ih =>
    intro run prevW res h hall
    unfold searchAux at h
    by_cases hd : c.isDigit
    · rw [if_pos hd] at h
      have hall' : (run ++ [c]).all Char.isDigit = true := by
        simp [List.all_append, hall, hd]
      obtain ⟨h1, h2, pre, post, h3⟩ := ih (run ++ [c]) prevW res h hall'
      refine ⟨h1, h2, pre, post, ?_⟩
      rw [← h3]
      simp
    · rw [if_neg hd] at h
      split at h
      · rename_i hcond
        injection h with h
        subst h
        exact ⟨hcond.2.1, hall, ⟨[], c :: cs, by simp⟩⟩
      · obtain ⟨h1, h2, pre, post, h3⟩ := ih [] (isWordChar c) res h (by simp)
        refine ⟨h1, h2, run ++ [c] ++ pre, post, ?_⟩
        simp only [List.nil_append] at h3
        subst h3
        simp

theorem searchAux_eq_firstDelimited : ∀ (l run : List Char) (prevW : Bool),
    searchAux prevW run l =
      ((digitRunsAux prevW run l).find? isDelimitedRun).map (fun t => t.2.1) := by
  intro l
  induction l with
  | nil =>
    intro run prevW
    unfold searchAux digitRunsAux
    by_cases hr : run.isEmpty = true
    · have h0 : run = [] := List.isEmpty_iff.mp hr
      subst h0
      simp
    · rw [if_neg hr]
      cases prevW <;> by_cases h5 : 5 ≤ run.length <;>
        simp [List.find?, isDelimitedRun, h5]
  | cons c cs ih =>
    intro run prevW
    unfold searchAux digitRunsAux
    by_cases hd : c.isDigit = true
    · rw [if_pos hd, if_pos hd]
      exact ih (run ++ [c]) prevW
    · rw [if_neg hd, if_neg hd]
      by_cases hr : run.isEmpty = true
      · have h0 : run = [] := List.isEmpty_iff.mp hr
        subst h0
        rw [if_neg (by simp), if_pos (show ([] : List Char).isEmpty = true from rfl)]
        exact ih [] (isWordChar c)
      · rw [if_neg hr]
        by_cases hdel : isDelimitedRun (prevW, run, isWordChar c) = true
        · have hc : prevW = false ∧ 5 ≤ run.length ∧ isWordChar c = false := by
            simpa [isDelimitedRun, Bool.and_eq_true, Bool.not_eq_true',
              decide_eq_true_eq, and_assoc] using hdel
          rw [if_pos (by simp [hc.1, hc.2.1, hc.2.2])]
          simp [List.find?, hdel]
        · have hc : ¬ (¬prevW = true ∧ 5 ≤ run.length ∧ ¬isWordChar c = true) := by
            intro hcon
            apply hdel
            simp [isDelimitedRun, Bool.and_eq_true, Bool.not_eq_true',
              decide_eq_true_eq, and_assoc]
            exact ⟨by simpa using hcon.1, hcon.2.1, by simpa using hcon.2.2⟩
          rw [if_neg hc]
          have hfind : (((prevW, run, isWordChar c) :: digitRunsAux (isWordChar c) [] cs).find?
              isDelimitedRun) = (digitRunsAux (isWordChar c) [] cs).find? isDelimitedRun := by
            simp [List.find?, hdel]
          rw [hfind]
          exact ih [] (isWordChar c)

theorem process_message_existing (f lg : String) (now : Nat)
    (mr : String → List (String × String) → String) (m uid sid : String)
    (st : AgentState) (s : Session)
    (hsid : ¬ sid = "") (hs : getKey sid st.sessions = some s) :
    ∃ a r st',
      process_message f lg now mr ⟨m, some sid, uid⟩ st = .ok (r, st') ∧
      r.session_id = sid ∧
      getKey sid st'.sessions = some
        { s with
          last_activity := now,
          message_count := s.message_count + 1,
          messages := s.messages ++ [⟨"user", m, now⟩, ⟨"assistant", a, now⟩] } := by
  unfold process_message
  simp only [if_neg hsid, hs]
  cases htool : (analyze_intent m).tool with
  | some tool_name =>
    simp only [htool]
    refine ⟨mr tool_name (extractArguments tool_name m), _, _, rfl, rfl, ?_⟩
    simp [log_tool_execution, getKey_setKey_self, List.append_assoc]
  | none =>
    simp only [htool]
    refine ⟨"I understand you\x27re asking about: " ++ m ++
      ". How can I help you with delivery services?", _, _, rfl, rfl, ?_⟩
    simp [getKey_setKey_self, List.append_assoc]

theorem runMessages_spec : ∀ (msgs : List String) (sid : String) (now : Nat)
    (mr : String → List (String × String) → String) (st : AgentState) (s : Session),
    ¬ sid = "" → getKey sid st.sessions = some s →
    ∃ s', getKey sid (runMessages sid now mr st msgs).sessions = some s' ∧
      s'.message_count = s.message_count + msgs.length ∧
      (s'.messages.filter (fun x => x.role == "user")).map (fun x => x.content)
        = (s.messages.filter (fun x => x.role == "user")).map (fun x => x.content) ++ msgs ∧
      s'.messages.length = s.messages.length + 2 * msgs.length := by
  intro msgs
  induction msgs with
  | nil =>
    intro sid now mr st s _ hs
    exact ⟨s, by simpa [runMessages] using hs, by simp, by simp, by simp⟩
  | cons m ms ih =>
    intro sid now mr st s hsid hs
    obtain ⟨a, r, st', hpm, _, hget⟩ :=
      process_message_existing "unused-fresh-id" "log-id" now mr m "anonymous" sid st s hsid hs
    obtain ⟨s', h1, h2, h3, h4⟩ := ih sid now mr st' _ hsid hget
    refine ⟨s', ?_, ?_, ?_, ?_⟩
    · simpa [runMessages, hpm] using h1
    · rw [h2]; simp; omega
    · rw [h3]; simp [List.filter_append]
    · rw [h4]; simp; omega

theorem no_digit_short_runs (msg : String)
    (hnd : msg.data.all (fun c => !c.isDigit) = true) :
    ∀ pre run post, msg.data = pre ++ run ++ post → run.all Char.isDigit = true →
      run.length < 5 := by
  intro pre run post heq hdig
  cases run with
  | nil => simp
  | cons c t =>
    exfalso
    have hc : c ∈ msg.data := by rw [heq]; simp
    have h1 := List.all_eq_true.mp hnd c hc
    have h2 := List.all_eq_true.mp hdig c (by simp)
    simp [h2] at h1

/-- C1 (amended): a call to the process-message operation that supplies a
non-empty session identifier not present in the session store fails with
a 404 NotFound HTTPException, not with chat text; get-session on any
identifier absent from the store likewise fails with 404; and
create-session immediately followed by get-session always succeeds and
returns the new session with message count 0 and an empty transcript. -/
theorem C1_amended :
    (∀ (f lg : String) (now : Nat) (mr : String → List (String × String) → String)
       (m sid uid : String) (st : AgentState),
       ¬ sid = "" → getKey sid st.sessions = none →
       process_message f lg now mr ⟨m, some sid, uid⟩ st = .error ⟨404, "Session not found"⟩) ∧
    (∀ (sid : String) (st : AgentState), getKey sid st.sessions = none →
       get_session sid st = .error ⟨404, "Session not found"⟩) ∧
    (∀ (f uid : String) (now : Nat) (st : AgentState),
       get_session (create_session f uid now st).1 (create_session f uid now st).2 =
         .ok ⟨f, uid, now, 0, now⟩ ∧
       getKey f (create_session f uid now st).2.sessions = some ⟨uid, now, [], 0, now⟩) := by
  refine ⟨?_, ?_, ?_⟩
  · intro f lg now mr m sid uid st hsid hnone
    unfold process_message
    simp [if_neg hsid, hnone]
  · intro sid st hnone
    unfold get_session
    simp [hnone]
  · intro f uid now st
    constructor
    · unfold get_session create_session
      simp [getKey_setKey_self]
    · unfold create_session
      simp [getKey_setKey_self]

/-- C1 counterexample to the claim as stated: the empty string is a
session identifier not present in the store, yet process-message succeeds
(it creates a fresh session) instead of signalling NotFound, because the
resolution step tests the identifier for truthiness. -/
theorem C1_counterexample :
    getKey "" (AgentState.mk [] []).sessions = none ∧
    (process_message "fresh-id" "log-id" 0 (fun _ _ => "r")
      ⟨"hi", some "", "anonymous"⟩ ⟨[], []⟩).isOk = true := by
  exact ⟨rfl, by decide⟩

/-- C1 witness: the amended theorem applied at concrete inputs. -/
theorem C1_witness :
    process_message "f" "lg" 0 (fun _ _ => "r") ⟨"hi", some "ghost", "u"⟩ ⟨[], []⟩ =
      .error ⟨404, "Session not found"⟩ ∧
    get_session "ghost" (⟨[], []⟩ : AgentState) = .error ⟨404, "Session not found"⟩ ∧
    get_session (create_session "s1" "u" 7 ⟨[], []⟩).1 (create_session "s1" "u" 7 ⟨[], []⟩).2 =
      .ok ⟨"s1", "u", 7, 0, 7⟩ :=
  ⟨C1_amended.1 "f" "lg" 0 (fun _ _ => "r") "hi" "ghost" "u" ⟨[], []⟩ (by decide) rfl,
   C1_amended.2.1 "ghost" ⟨[], []⟩ rfl,
   (C1_amended.2.2 "s1" "u" 7 ⟨[], []⟩).1⟩

/-- C10: a supplied empty-string session identifier is treated as absent:
process-message creates a fresh session and returns its new identifier
rather than signalling NotFound, because the session-resolution step
tests the identifier for truthiness, not for presence of the field. -/
theorem C10_empty_session_id (f lg : String) (now : Nat)
    (mr : String → List (String × String) → String) (m uid : String) (st : AgentState) :
    ∃ r st' s',
      process_message f lg now mr ⟨m, some "", uid⟩ st = .ok (r, st') ∧
      r.session_id = f ∧
      getKey f st'.sessions = some s' ∧
      s'.user_id = uid := by
  unfold process_message create_session
  simp only [↓reduceIte]
  rw [getKey_setKey_self]
  cases htool : (analyze_intent m).tool with
  | some tool_name =>
    simp only [htool]
    exact ⟨_, _, _, rfl, rfl, getKey_setKey_self _ _ _, rfl⟩
  | none =>
    simp only [htool]
    exact ⟨_, _, _, rfl, rfl, getKey_setKey_self _ _ _, rfl⟩

/-- C2: starting from a freshly created session, processing N user
messages stores message count N (the count is bumped exactly once per
user message and never for the assistant messages: the transcript holds
2N messages of which exactly N have the user role), and the transcript
lists the user messages in exactly the order they were appended. -/
theorem C2_transcript_invariant (fid uid : String) (now : Nat)
    (mr : String → List (String × String) → String) (st : AgentState)
    (msgs : List String) (hfid : ¬ fid = "") :
    ∃ s', getKey (create_session fid uid now st).1
        (runMessages (create_session fid uid now st).1 now mr
          (create_session fid uid now st).2 msgs).sessions = some s' ∧
      s'.message_count = msgs.length ∧
      (s'.messages.filter (fun x => x.role == "user")).map (fun x => x.content) = msgs ∧
      s'.messages.length = 2 * msgs.length := by
  have hs : getKey fid (create_session fid uid now st).2.sessions =
      some ⟨uid, now, [], 0, now⟩ := by
    unfold create_session
    exact getKey_setKey_self _ _ _
  obtain ⟨s', h1, h2, h3, h4⟩ := runMessages_spec msgs fid now mr _ _ hfid hs
  exact ⟨s', h1, by simpa using h2, by simpa using h3, by simpa using h4⟩

/-- C2 witness: the invariant applied to two concrete messages. -/
theorem C2_witness :
    (¬ "sess-1" = "") ∧
    ∃ s', getKey (create_session "sess-1" "u" 0 ⟨[], []⟩).1
        (runMessages (create_session "sess-1" "u" 0 ⟨[], []⟩).1 0 (fun _ _ => "ok")
          (create_session "sess-1" "u" 0 ⟨[], []⟩).2 ["hello", "price please"]).sessions = some s' ∧
      s'.message_count = (["hello", "price please"] : List String).length ∧
      (s'.messages.filter (fun x => x.role == "user")).map (fun x => x.content) =
        ["hello", "price please"] ∧
      s'.messages.length = 2 * (["hello", "price please"] : List String).length :=
  ⟨by decide,
   C2_transcript_invariant "sess-1" "u" 0 (fun _ _ => "ok") ⟨[], []⟩
     ["hello", "price please"] (by decide)⟩

/-- C3: intent classification is a deterministic, priority-ordered
function of the case-folded text: a quote/price keyword always wins with
intent get_quote, tool get_dropoff_quote, confidence 0.8 (even when a
tracking keyword is also present); otherwise a track/status keyword gives
track_order / track_order / 0.8; otherwise a greeting/test keyword gives
test / ping / 0.9; otherwise general with no tool and confidence 0.5. -/
theorem C3_intent_priority :
    (∀ s : String, quoteKeywords.any (fun w => strHasSub (strLower s) w) = true →
       analyze_intent s = ⟨"get_quote", some "get_dropoff_quote", (8 : ℚ)/10⟩) ∧
    (∀ s : String, quoteKeywords.any (fun w => strHasSub (strLower s) w) = false →
       trackKeywords.any (fun w => strHasSub (strLower s) w) = true →
       analyze_intent s = ⟨"track_order", some "track_order", (8 : ℚ)/10⟩) ∧
    (∀ s : String, quoteKeywords.any (fun w => strHasSub (strLower s) w) = false →
       trackKeywords.any (fun w => strHasSub (strLower s) w) = false →
       pingKeywords.any (fun w => strHasSub (strLower s) w) = true →
       analyze_intent s = ⟨"test", some "ping", (9 : ℚ)/10⟩) ∧
    (∀ s : String, quoteKeywords.any (fun w => strHasSub (strLower s) w) = false →
       trackKeywords.any (fun w => strHasSub (strLower s) w) = false →
       pingKeywords.any (fun w => strHasSub (strLower s) w) = false →
       analyze_intent s = ⟨"general", none, (5 : ℚ)/10⟩) ∧
    analyze_intent "price and track order 12345" =
      ⟨"get_quote", some "get_dropoff_quote", (8 : ℚ)/10⟩ ∧
    strHasSub (strLower "price and track order 12345") "price" = true ∧
    strHasSub (strLower "price and track order 12345") "track" = true := by
  refine ⟨?_, ?_, ?_, ?_, by rfl, by decide, by decide⟩
  · intro s h; unfold analyze_intent; simp [h]
  · intro s h1 h2; unfold analyze_intent; simp [h1, h2]
  · intro s h1 h2 h3; unfold analyze_intent; simp [h1, h2, h3]
  · intro s h1 h2 h3; unfold analyze_intent; simp [h1, h2, h3]

/-- C3 witness: each classification rule applied at a concrete message. -/
theorem C3_witness :
    analyze_intent "How MUCH will it cost?" = ⟨"get_quote", some "get_dropoff_quote", (8 : ℚ)/10⟩ ∧
    analyze_intent "where is my order" = ⟨"track_order", some "track_order", (8 : ℚ)/10⟩ ∧
    analyze_intent "hello" = ⟨"test", some "ping", (9 : ℚ)/10⟩ ∧
    analyze_intent "good day" = ⟨"general", none, (5 : ℚ)/10⟩ :=
  ⟨C3_intent_priority.1 _ (by decide),
   C3_intent_priority.2.1 _ (by decide) (by decide),
   C3_intent_priority.2.2.1 _ (by decide) (by decide) (by decide),
   C3_intent_priority.2.2.2.1 _ (by decide) (by decide) (by decide)⟩

/-- C4 counterexample to the claim as stated: the text a123456 contains
123456 as its first run of five or more consecutive digits, but the
extraction yields the fallback 12345 because the regex requires a word
boundary before the run and the letter a denies it. -/
theorem C4_counterexample :
    firstDigitRunSpec [] "a123456".data = some ("123456".data) ∧
    extractTrackOrderId "a123456" = "12345" ∧
    extractArguments "track_order" "a123456" = [("order_id", "12345")] ∧
    ¬ ("12345" : String) = "123456" := by
  exact ⟨by decide, by decide, by decide, by decide⟩

/-- C4 (amended): extraction for the track-order tool always returns the
mapping with key order_id; on every text the identifier equals the FIRST
maximal run of five or more consecutive digits that is delimited on both
sides by regex word boundaries (the spec-words comparator
firstDelimitedRun), and the fixed placeholder 12345 is returned exactly
when no such delimited run exists; in particular, order 123456 please
yields 123456.  In addition, any returned non-fallback identifier is a
run of five or more digits occurring in the text, and a text with no run
of five or more consecutive digits at all always yields the fallback. -/
theorem C4_amended :
    extractArguments "track_order" "order 123456 please" = [("order_id", "123456")] ∧
    (∀ msg : String, extractTrackOrderId msg =
      match firstDelimitedRun msg.data with
      | some run => String.mk run
      | none => "12345") ∧
    (∀ msg : String, extractArguments "track_order" msg =
      [("order_id", extractTrackOrderId msg)]) ∧
    (∀ msg : String, extractTrackOrderId msg = "12345" ∨
       (5 ≤ (extractTrackOrderId msg).data.length ∧
        (extractTrackOrderId msg).data.all Char.isDigit = true ∧
        ∃ pre post, msg.data = pre ++ (extractTrackOrderId msg).data ++ post)) ∧
    (∀ msg : String,
       (∀ pre run post, msg.data = pre ++ run ++ post → run.all Char.isDigit = true →
         run.length < 5) →
       extractTrackOrderId msg = "12345") ∧
    extractTrackOrderId "a123456" = "12345" := by
  refine ⟨by decide, ?_, ?_, ?_, ?_, by decide⟩
  · intro msg
    unfold extractTrackOrderId firstDelimitedRun
    rw [searchAux_eq_firstDelimited]
  · intro msg
    unfold extractArguments
    simp
  · intro msg
    unfold extractTrackOrderId
    cases hsr : searchAux false [] msg.data with
    | none => left; rfl
    | some run =>
      right
      obtain ⟨h1, h2, pre, post, h3⟩ := searchAux_sound msg.data [] false run hsr (by simp)
      simp only [List.nil_append] at h3
      refine ⟨by simpa using h1, by simpa using h2, pre, post, by simpa using h3⟩
  · intro msg hshort
    cases hsr : searchAux false [] msg.data with
    | none => unfold extractTrackOrderId; rw [hsr]
    | some run =>
      obtain ⟨h1, h2, pre, post, h3⟩ := searchAux_sound msg.data [] false run hsr (by simp)
      simp only [List.nil_append] at h3
      exact absurd h1 (by have := hshort pre run post h3 h2; omega)

/-- C4 witness: the amended theorem applied at concrete inputs. -/
theorem C4_witness :
    extractArguments "track_order" "hi there" =
      [("order_id", extractTrackOrderId "hi there")] ∧
    extractTrackOrderId "hi there" = "12345" :=
  ⟨C4_amended.2.2.1 "hi there",
   C4_amended.2.2.2.2.1 "hi there" (no_digit_short_runs "hi there" (by decide))⟩

theorem getLast?_drop {α : Type} : ∀ (l : List α) (k : Nat), k < l.length →
    (l.drop k).getLast? = l.getLast? := by
  intro l
  induction l with
  | nil => intro k h; simp at h
  | cons c t ih =>
    intro k h
    cases k with
    | zero => rfl
    | succ k =>
      have hk : k < t.length := by simp only [List.length_cons] at h; omega
      simp only [List.drop_succ_cons]
      rw [ih k hk]
      cases t with
      | nil => simp at hk
      | cons d u => simp [List.getLast?_cons_cons]

/-- C9 counterexample to the claim as stated: with one record in the log,
the query at limit 0 returns the whole log instead of the most-recent
zero records, because `tool_logs[-0:]` is `tool_logs[0:]` in Python. -/
theorem C9_counterexample :
    (get_tool_logs 0 ⟨[], [logEntry0]⟩).2 = [logEntry0] ∧
    ¬ ([logEntry0] : List ToolLogEntry) = [] := by
  exact ⟨rfl, by decide⟩

/-- C9 (amended): recording a tool invocation appends exactly one
immutable record at the end of the log, immediately visible as the last
element of every query with limit at least one; and for every limit N of
at least one, the query returns a suffix of the log (hence the
most-recent records in chronological order) of length min N (log size);
a limit of zero returns the whole log via Python negative slicing. -/
theorem C9_amended :
    (∀ (logId : String) (now : Nat) (sid tool : String)
       (args : List (String × String)) (result : String) (st : AgentState),
       (log_tool_execution logId now sid tool args result st).2.tool_logs =
         st.tool_logs ++ [(log_tool_execution logId now sid tool args result st).1] ∧
       (log_tool_execution logId now sid tool args result st).1 =
         ⟨logId, tool, args, result, now, sid⟩ ∧
       (∀ N : Int, 1 ≤ N →
         ((get_tool_logs N (log_tool_execution logId now sid tool args result st).2).2).getLast? =
           some (log_tool_execution logId now sid tool args result st).1)) ∧
    (∀ (st : AgentState) (N : Int), 1 ≤ N →
       ∃ pre, st.tool_logs = pre ++ (get_tool_logs N st).2 ∧
         ((get_tool_logs N st).2).length = min N.toNat st.tool_logs.length) := by
  constructor
  · intro logId now sid tool args result st
    refine ⟨rfl, rfl, ?_⟩
    intro N hN
    unfold get_tool_logs log_tool_execution pySliceFrom
    have hneg : ¬ ((0 : Int) ≤ -N) := by omega
    rw [if_neg hneg]
    have hlt : (st.tool_logs ++ [(⟨logId, tool, args, result, now, sid⟩ : ToolLogEntry)]).length -
        (- -N).toNat < (st.tool_logs ++ [(⟨logId, tool, args, result, now, sid⟩ : ToolLogEntry)]).length := by
      simp only [List.length_append, List.length_cons, List.length_nil, neg_neg]
      omega
    rw [getLast?_drop _ _ hlt]
    simp
  · intro st N hN
    unfold get_tool_logs pySliceFrom
    have hneg : ¬ ((0 : Int) ≤ -N) := by omega
    rw [if_neg hneg]
    refine ⟨st.tool_logs.take (st.tool_logs.length - (- -N).toNat), ?_, ?_⟩
    · exact (List.take_append_drop _ _).symm
    · simp only [List.length_drop, neg_neg]
      omega

/-- C9 witness: the amended theorem applied at concrete inputs. -/
theorem C9_witness :
    ((get_tool_logs 1 (log_tool_execution "log-0" 0 "sess-0" "ping" [] "pong" ⟨[], []⟩).2).2).getLast? =
      some (log_tool_execution "log-0" 0 "sess-0" "ping" [] "pong" ⟨[], []⟩).1 ∧
    ∃ pre, (⟨[], [logEntry0]⟩ : AgentState).tool_logs =
        pre ++ (get_tool_logs 3 ⟨[], [logEntry0]⟩).2 ∧
      ((get_tool_logs 3 (⟨[], [logEntry0]⟩ : AgentState)).2).length =
        min (3 : Int).toNat (⟨[], [logEntry0]⟩ : AgentState).tool_logs.length :=
  ⟨(C9_amended.1 "log-0" 0 "sess-0" "ping" [] "pong" ⟨[], []⟩).2.2 1 (by decide),
   C9_amended.2 ⟨[], [logEntry0]⟩ 3 (by decide)⟩

/-- C5: for every delivery tool, a missing client identifier or secret
identifier makes the invocation return with zero network calls issued and
a result string containing the word credentials, regardless of the other
arguments. -/
theorem C5_missing_credentials (t : DeliveryTool) (c : Creds) (inp : ToolInputs)
    (net : HttpRequest → HttpOutcome) (h : c.client = "" ∨ c.secret = "") :
    (invokeTool t c inp net).2 = [] ∧
    strHasSub (invokeTool t c inp net).1 "credentials" = true := by
  cases t <;>
    (simp only [invokeTool, get_dropoff_quote, get_pickup_quote, confirm_dropoff,
      confirm_pickup, get_order_list, get_route_details, get_order_by_token,
      track_order_by_id, track_order_by_access_key, get_driver_location,
      set_delivery_ready, set_laboratory_ready, set_dropoff_received];
     rw [if_pos h];
     exact ⟨rfl, by decide⟩)

/-- C5 witness: the theorem applied with an absent client identifier. -/
theorem C5_witness :
    (invokeTool .getDropoffQuote ⟨"", "secret"⟩ inp0 (fun _ => .exn "no network")).2 = [] ∧
    strHasSub (invokeTool .getDropoffQuote ⟨"", "secret"⟩ inp0
      (fun _ => .exn "no network")).1 "credentials" = true :=
  C5_missing_credentials .getDropoffQuote ⟨"", "secret"⟩ inp0
    (fun _ => .exn "no network") (Or.inl rfl)

theorem errorSub (x y : String) :
    strHasSub ("Error: HTTP " ++ x ++ " - " ++ y) "Error" = true :=
  strHasSub_append_left _ _ _ (strHasSub_append_left _ _ _
    (strHasSub_append_left _ _ _ (by decide)))

/-- C6: with credentials configured, every delivery tool converts every
upstream outcome into a result string and never raises: a non-2xx HTTP
status yields exactly the string Error: HTTP status - body (containing
the status code and upstream body text) whenever the request was issued,
and any other transport exception yields the tool's catch-all error
string; the validation-only early returns also carry an Error marker. -/
theorem C6_transport_errors (t : DeliveryTool) (c : Creds) (inp : ToolInputs)
    (h1 : ¬ c.client = "") (h2 : ¬ c.secret = "") :
    (∀ (code : Nat) (txt : String),
       strHasSub (invokeTool t c inp (fun _ => .httpError code txt)).1 "Error" = true ∧
       (¬ (invokeTool t c inp (fun _ => .httpError code txt)).2 = [] →
         (invokeTool t c inp (fun _ => .httpError code txt)).1 =
           "Error: HTTP " ++ toString code ++ " - " ++ txt)) ∧
    (∀ msg : String,
       strHasSub (invokeTool t c inp (fun _ => .exn msg)).1 "Error" = true ∧
       (¬ (invokeTool t c inp (fun _ => .exn msg)).2 = [] →
         (invokeTool t c inp (fun _ => .exn msg)).1 = exnMsgHead t ++ msg)) := by
  have hcred : ¬ (c.client = "" ∨ c.secret = "") := by
    intro hc
    rcases hc with hc | hc
    · exact h1 hc
    · exact h2 hc
  cases t
  case getPickupQuote =>
    constructor
    · intro code txt
      simp only [invokeTool, get_pickup_quote]
      rw [if_neg hcred]
      by_cases hv1 : inp.taken_asap = 0 ∧ inp.schedule_date_local = ""
      · rw [if_pos hv1]
        exact ⟨by decide, fun hne => absurd rfl hne⟩
      · rw [if_neg hv1]
        by_cases hv2 : inp.pickup_addresses.isEmpty = true
        · rw [if_pos hv2]
          exact ⟨by decide, fun hne => absurd rfl hne⟩
        · rw [if_neg hv2]
          exact ⟨errorSub (toString code) txt, fun _ => rfl⟩
    · intro msg
      simp only [invokeTool, get_pickup_quote]
      rw [if_neg hcred]
      by_cases hv1 : inp.taken_asap = 0 ∧ inp.schedule_date_local = ""
      · rw [if_pos hv1]
        exact ⟨by decide, fun hne => absurd rfl hne⟩
      · rw [if_neg hv1]
        by_cases hv2 : inp.pickup_addresses.isEmpty = true
        · rw [if_pos hv2]
          exact ⟨by decide, fun hne => absurd rfl hne⟩
        · rw [if_neg hv2]
          exact ⟨strHasSub_append_left _ _ _ (by decide), fun _ => rfl⟩
  all_goals
    (constructor
     · intro code txt
       simp only [invokeTool, get_dropoff_quote, confirm_dropoff, confirm_pickup,
         get_order_list, get_route_details, get_order_by_token, track_order_by_id,
         track_order_by_access_key, get_driver_location, set_delivery_ready,
         set_laboratory_ready, set_dropoff_received]
       rw [if_neg hcred]
       exact ⟨errorSub (toString code) txt, fun _ => rfl⟩
     · intro msg
       simp only [invokeTool, get_dropoff_quote, confirm_dropoff, confirm_pickup,
         get_order_list, get_route_details, get_order_by_token, track_order_by_id,
         track_order_by_access_key, get_driver_location, set_delivery_ready,
         set_laboratory_ready, set_dropoff_received]
       rw [if_neg hcred]
       exact ⟨strHasSub_append_left _ _ _ (by decide), fun _ => rfl⟩)

/-- C6 witness: the theorem applied at a concrete tool and outcomes. -/
theorem C6_witness :
    (invokeTool .getDropoffQuote ⟨"cid", "sid0"⟩ inp0 (fun _ => .httpError 500 "boom")).1 =
      "Error: HTTP " ++ toString (500 : Nat) ++ " - " ++ "boom" ∧
    strHasSub (invokeTool .getDropoffQuote ⟨"cid", "sid0"⟩ inp0
      (fun _ => .exn "timed out")).1 "Error" = true :=
  ⟨((C6_transport_errors .getDropoffQuote ⟨"cid", "sid0"⟩ inp0
      (by decide) (by decide)).1 500 "boom").2 (List.cons_ne_nil _ _),
   ((C6_transport_errors .getDropoffQuote ⟨"cid", "sid0"⟩ inp0
      (by decide) (by decide)).2 "timed out").1⟩

/-- C7 counterexample to the claim as stated: get_dropoff_quote receives
a response whose code field is 500 (not the success sentinel 0) but which
carries a data field, and it produces its formatted success summary
instead of surfacing the raw structured response, because that tool keys
on the presence of data and never inspects code. -/
theorem C7_counterexample :
    codeIsZero [("code", Json.str "500"), ("data", Json.obj [("price", Json.str "10.00")])] = false ∧
    (invokeTool .getDropoffQuote ⟨"cid", "sid0"⟩ inp0
      (fun _ => .success 200 [("code", Json.str "500"), ("data", Json.obj [("price", Json.str "10.00")])])).1 =
      "Senpex Delivery Quote:\nOrder: Delivery Order\nPickup: 123 Market St, San Francisco, CA\nDropoff: 456 Main St, Los Angeles, CA\n\nPrice: $10.00\n" ∧
    ¬ (invokeTool .getDropoffQuote ⟨"cid", "sid0"⟩ inp0
      (fun _ => .success 200 [("code", Json.str "500"), ("data", Json.obj [("price", Json.str "10.00")])])).1 =
      "Quote response: " ++ pyStr (Json.obj [("code", Json.str "500"), ("data", Json.obj [("price", Json.str "10.00")])]) := by
  exact ⟨rfl, by decide, by decide⟩

/-- C7 (amended): for every delivery tool except get_dropoff_quote, a
non-error HTTP response whose code field differs from the success
sentinel "0" makes the tool surface the raw structured response with its
tool-specific heading; get_dropoff_quote instead keys on the presence of
a data field, surfacing the raw response only when data is absent; and
the success test holds exactly when the code field equals the string
"0". -/
theorem C7_amended :
    (∀ (t : DeliveryTool) (c : Creds) (inp : ToolInputs) (body : List (String × Json)),
       ¬ t = .getDropoffQuote → ¬ c.client = "" → ¬ c.secret = "" →
       codeIsZero body = false →
       ¬ (invokeTool t c inp (fun _ => .success 200 body)).2 = [] →
       (invokeTool t c inp (fun _ => .success 200 body)).1 =
         rawHead t ++ pyStr (Json.obj body)) ∧
    (∀ (c : Creds) (inp : ToolInputs) (body : List (String × Json)),
       ¬ c.client = "" → ¬ c.secret = "" →
       lookupJ "data" body = none →
       (invokeTool .getDropoffQuote c inp (fun _ => .success 200 body)).1 =
         "Quote response: " ++ pyStr (Json.obj body)) ∧
    (∀ body : List (String × Json), codeIsZero body = true →
       lookupJ "code" body = some (Json.str "0")) := by
  refine ⟨?_, ?_, ?_⟩
  · intro t c inp body ht hc1 hc2 hcode hne
    have hcred : ¬ (c.client = "" ∨ c.secret = "") := by tauto
    cases t
    case getDropoffQuote => exact absurd rfl ht
    case getPickupQuote =>
      simp only [invokeTool, get_pickup_quote] at hne ⊢
      rw [if_neg hcred] at hne ⊢
      by_cases hv1 : inp.taken_asap = 0 ∧ inp.schedule_date_local = ""
      · rw [if_pos hv1] at hne; exact absurd rfl hne
      · rw [if_neg hv1] at hne ⊢
        by_cases hv2 : inp.pickup_addresses.isEmpty = true
        · rw [if_pos hv2] at hne; exact absurd rfl hne
        · rw [if_neg hv2]
          simp [formatPickupQuote, hcode, rawHead]
    all_goals
      (simp only [invokeTool, confirm_dropoff, confirm_pickup, get_order_list,
         get_route_details, get_order_by_token, track_order_by_id,
         track_order_by_access_key, get_driver_location, set_delivery_ready,
         set_laboratory_ready, set_dropoff_received]
       rw [if_neg hcred]
       simp [formatConfirmDropoff, formatConfirmPickup, formatOrderList,
         formatRouteDetails, formatOrderByToken, formatTracking,
         formatDriverLocation, formatSetReady, hcode, rawHead])
  · intro c inp body h1 h2 hdata
    have hcred : ¬ (c.client = "" ∨ c.secret = "") := by tauto
    simp only [invokeTool, get_dropoff_quote]
    rw [if_neg hcred]
    simp [formatDropoffQuote, hdata]
  · intro body h
    unfold codeIsZero at h
    cases hl : lookupJ "code" body with
    | none => rw [hl] at h; simp at h
    | some v =>
      rw [hl] at h
      cases v with
      | str s =>
        have hs : s = "0" := by simpa using h
        rw [hs]
      | null => simp at h
      | bool b => simp at h
      | num q => simp at h
      | arr xs => simp at h
      | obj fs => simp at h

/-- C7 witness: the amended theorem applied at a concrete tool, at
get_dropoff_quote, and at a success body. -/
theorem C7_witness :
    (invokeTool .trackOrderById ⟨"cid", "sid0"⟩ inp0
      (fun _ => .success 200 [("code", Json.str "9")])).1 =
      rawHead .trackOrderById ++ pyStr (Json.obj [("code", Json.str "9")]) ∧
    (invokeTool .getDropoffQuote ⟨"cid", "sid0"⟩ inp0
      (fun _ => .success 200 [("code", Json.str "9")])).1 =
      "Quote response: " ++ pyStr (Json.obj [("code", Json.str "9")]) ∧
    lookupJ "code" [("code", Json.str "0")] = some (Json.str "0") :=
  ⟨C7_amended.1 .trackOrderById ⟨"cid", "sid0"⟩ inp0 [("code", Json.str "9")]
     (by decide) (by decide) (by decide) (by decide) (List.cons_ne_nil _ _),
   C7_amended.2.1 ⟨"cid", "sid0"⟩ inp0 [("code", Json.str "9")]
     (by decide) (by decide) rfl,
   C7_amended.2.2 [("code", Json.str "0")] (by decide)⟩

theorem lookupJ_append (k : String) (l1 l2 : List (String × Json)) :
    lookupJ k (l1 ++ l2) = (lookupJ k l1).or (lookupJ k l2) := by
  induction l1 with
  | nil => simp [lookupJ, Option.or]
  | cons h t ih =>
    obtain ⟨k', v⟩ := h
    by_cases hk : k' = k
    · simp [lookupJ, hk, Option.or]
    · simp [lookupJ, hk, ih]

theorem lookupJ_optField_self (c : Prop) [Decidable c] (k : String) (v : Json) :
    lookupJ k (optField c k v) = if c then some v else none := by
  unfold optField
  split <;> simp [lookupJ]

theorem lookupJ_optField_ne (c : Prop) [Decidable c] (k k' : String) (v : Json)
    (h : ¬ k' = k) : lookupJ k (optField c k' v) = none := by
  unfold optField
  split <;> simp [lookupJ, h]

theorem lookupJ_routes_tail_ne (k : String) (c : Prop) [Decidable c]
    (l : List (String × Json)) (h : ¬ "routes" = k) :
    lookupJ k (if c then (if l.isEmpty then [] else [("routes", Json.arr [Json.obj l])])
      else []) = none := by
  split
  · split
    · simp [lookupJ]
    · simp [lookupJ, h]
  · simp [lookupJ]

theorem lookupJ_ifsingle_ne (c : Prop) [Decidable c] (k k' : String) (v : Json)
    (h : ¬ k' = k) : lookupJ k (if c then [] else [(k', v)]) = none := by
  split <;> simp [lookupJ, h]

theorem lookupJ_pickupRoutesOpt_ne (k : String)
    (o : Option (List (List (String × String)))) (h : ¬ "routes" = k) :
    lookupJ k (pickupRoutesOpt o) = none := by
  cases o with
  | none => simp [pickupRoutesOpt, lookupJ]
  | some updates =>
    simp only [pickupRoutesOpt]
    by_cases hu : updates.isEmpty = true
    · simp [hu, lookupJ]
    · rw [if_neg hu]
      split
      · simp [lookupJ]
      · simp [lookupJ, h]

/-- C8 counterexample to the claim as stated: with the default (empty)
pickup_instructions, get_dropoff_quote still submits the corresponding
optional upstream field route_desc as an empty string instead of
omitting it. -/
theorem C8_counterexample :
    inp0.pickup_instructions = "" ∧
    ∃ req b, (get_dropoff_quote ⟨"cid", "sid0"⟩ inp0 (fun _ => .exn "off")).2 = [req] ∧
      req.body = some b ∧ lookupJ "route_desc" b = some (Json.str "") := by
  exact ⟨rfl, _, _, rfl, rfl, rfl⟩

/-- C8 (amended): required upstream fields are taken directly from the
declared arguments; both confirmation tools include their optional
sender_name / sender_cell / sender_desc / order_desc fields only when
non-empty, confirm_dropoff includes its routes update only when
recipient_name or recipient_phone is non-empty, and the pickup-quote
tool includes schedule_date_local and promo_code only when non-empty.
confirm_pickup's routes updates are key-presence-based, not value-based:
an update entry contributes its rec_name / rec_phone whenever the key is
present, even with an empty value, entries without either key are
dropped, and the routes field is omitted when pickup_updates is absent,
empty, or leaves no surviving entry.  The dropoff-quote tool, however,
submits every field of its body unconditionally, so its empty-string
optional arguments (such as pickup_instructions, sent as route_desc) are
submitted as empty values rather than omitted. -/
theorem C8_amended :
    (∀ (c : Creds) (inp : ToolInputs) (net : HttpRequest → HttpOutcome),
       ¬ c.client = "" → ¬ c.secret = "" →
       ∃ req b, (confirm_dropoff c inp net).2 = [req] ∧ req.body = some b ∧
         lookupJ "api_token" b = some (Json.str inp.api_token) ∧
         lookupJ "email" b = some (Json.str inp.user_email) ∧
         lookupJ "sender_name" b =
           (if inp.sender_name = "" then none else some (Json.str inp.sender_name)) ∧
         lookupJ "sender_cell" b =
           (if inp.sender_cell = "" then none else some (Json.str inp.sender_cell)) ∧
         lookupJ "sender_desc" b =
           (if inp.sender_desc = "" then none else some (Json.str inp.sender_desc)) ∧
         lookupJ "order_desc" b =
           (if inp.order_desc = "" then none else some (Json.str inp.order_desc)) ∧
         (hasKeyJ "routes" b = true ↔ (¬ inp.recipient_name = "" ∨ ¬ inp.recipient_phone = ""))) ∧
    (∀ (c : Creds) (inp : ToolInputs) (net : HttpRequest → HttpOutcome),
       ¬ c.client = "" → ¬ c.secret = "" →
       ¬ (inp.taken_asap = 0 ∧ inp.schedule_date_local = "") →
       ¬ inp.pickup_addresses.isEmpty = true →
       ∃ req b, (get_pickup_quote c inp net).2 = [req] ∧ req.body = some b ∧
         lookupJ "email" b = some (Json.str inp.user_email) ∧
         lookupJ "schedule_date_local" b =
           (if inp.schedule_date_local = "" then none
            else some (Json.str inp.schedule_date_local)) ∧
         lookupJ "promo_code" b =
           (if inp.promo_code = "" then none else some (Json.str inp.promo_code))) ∧
    (∀ (c : Creds) (inp : ToolInputs) (net : HttpRequest → HttpOutcome),
       ¬ c.client = "" → ¬ c.secret = "" →
       ∃ req b, (get_dropoff_quote c inp net).2 = [req] ∧ req.body = some b ∧
         lookupJ "email" b = some (Json.str inp.user_email) ∧
         lookupJ "order_desc" b = some (Json.str inp.order_desc) ∧
         lookupJ "route_desc" b = some (Json.str inp.pickup_instructions)) ∧
    (∀ (c : Creds) (inp : ToolInputs) (net : HttpRequest → HttpOutcome),
       ¬ c.client = "" → ¬ c.secret = "" →
       ∃ req b, (confirm_pickup c inp net).2 = [req] ∧ req.body = some b ∧
         lookupJ "api_token" b = some (Json.str inp.api_token) ∧
         lookupJ "email" b = some (Json.str inp.user_email) ∧
         lookupJ "sender_name" b =
           (if inp.sender_name = "" then none else some (Json.str inp.sender_name)) ∧
         lookupJ "sender_cell" b =
           (if inp.sender_cell = "" then none else some (Json.str inp.sender_cell)) ∧
         lookupJ "sender_desc" b =
           (if inp.sender_desc = "" then none else some (Json.str inp.sender_desc)) ∧
         lookupJ "order_desc" b =
           (if inp.order_desc = "" then none else some (Json.str inp.order_desc)) ∧
         lookupJ "routes" b = lookupJ "routes" (pickupRoutesOpt inp.pickup_updates)) ∧
    (∀ u : String, pickupRoutesOpt (some [[("rec_name", u)]]) =
       [("routes", Json.arr [Json.obj [("rec_name", Json.str u)]])]) ∧
    (pickupRoutesOpt none = [] ∧ pickupRoutesOpt (some []) = [] ∧
     pickupRoutesOpt (some [[("note", "x")]]) = []) := by
  refine ⟨?_, ?_, ?_, ?_, ?_, ?_⟩
  · intro c inp net h1 h2
    have hcred : ¬ (c.client = "" ∨ c.secret = "") := by tauto
    simp only [confirm_dropoff]
    rw [if_neg hcred]
    refine ⟨_, _, rfl, rfl, ?_, ?_, ?_, ?_, ?_, ?_, ?_⟩
    · simp [lookupJ_append, lookupJ, Option.or]
    · simp [lookupJ_append, lookupJ, Option.or]
    · by_cases hA : inp.sender_name = "" <;>
        simp [lookupJ_append, lookupJ, Option.or, lookupJ_optField_self,
          lookupJ_optField_ne, lookupJ_routes_tail_ne, hA]
    · by_cases hB : inp.sender_cell = "" <;>
        simp [lookupJ_append, lookupJ, Option.or, lookupJ_optField_self,
          lookupJ_optField_ne, lookupJ_routes_tail_ne, hB]
    · by_cases hC : inp.sender_desc = "" <;>
        simp [lookupJ_append, lookupJ, Option.or, lookupJ_optField_self,
          lookupJ_optField_ne, lookupJ_routes_tail_ne, hC]
    · by_cases hD : inp.order_desc = "" <;>
        simp [lookupJ_append, lookupJ, Option.or, lookupJ_optField_self,
          lookupJ_optField_ne, lookupJ_routes_tail_ne, hD]
    · by_cases hE : inp.recipient_name = "" <;> by_cases hF : inp.recipient_phone = "" <;>
        simp [hasKeyJ, lookupJ_append, lookupJ, Option.or, lookupJ_optField_self,
          lookupJ_optField_ne, lookupJ_ifsingle_ne, optField, hE, hF]
  · intro c inp net h1 h2 hv1 hv2
    have hcred : ¬ (c.client = "" ∨ c.secret = "") := by tauto
    simp only [get_pickup_quote]
    rw [if_neg hcred, if_neg hv1, if_neg hv2]
    refine ⟨_, _, rfl, rfl, ?_, ?_, ?_⟩
    · simp [lookupJ_append, lookupJ, Option.or]
    · by_cases hS : inp.schedule_date_local = "" <;>
        simp [lookupJ_append, lookupJ, Option.or, lookupJ_optField_self,
          lookupJ_optField_ne, hS]
    · by_cases hP : inp.promo_code = "" <;>
        simp [lookupJ_append, lookupJ, Option.or, lookupJ_optField_self,
          lookupJ_optField_ne, hP]
  · intro c inp net h1 h2
    have hcred : ¬ (c.client = "" ∨ c.secret = "") := by tauto
    simp only [get_dropoff_quote]
    rw [if_neg hcred]
    exact ⟨_, _, rfl, rfl, by simp [lookupJ], by simp [lookupJ], by simp [lookupJ]⟩
  · intro c inp net h1 h2
    have hcred : ¬ (c.client = "" ∨ c.secret = "") := by tauto
    simp only [confirm_pickup]
    rw [if_neg hcred]
    refine ⟨_, _, rfl, rfl, ?_, ?_, ?_, ?_, ?_, ?_, ?_⟩
    · simp [lookupJ_append, lookupJ, Option.or]
    · simp [lookupJ_append, lookupJ, Option.or]
    · by_cases hA : inp.sender_name = "" <;>
        simp [lookupJ_append, lookupJ, Option.or, lookupJ_optField_self,
          lookupJ_optField_ne, lookupJ_pickupRoutesOpt_ne, hA]
    · by_cases hB : inp.sender_cell = "" <;>
        simp [lookupJ_append, lookupJ, Option.or, lookupJ_optField_self,
          lookupJ_optField_ne, lookupJ_pickupRoutesOpt_ne, hB]
    · by_cases hC : inp.sender_desc = "" <;>
        simp [lookupJ_append, lookupJ, Option.or, lookupJ_optField_self,
          lookupJ_optField_ne, lookupJ_pickupRoutesOpt_ne, hC]
    · by_cases hD : inp.order_desc = "" <;>
        simp [lookupJ_append, lookupJ, Option.or, lookupJ_optField_self,
          lookupJ_optField_ne, lookupJ_pickupRoutesOpt_ne, hD]
    · simp [lookupJ_append, lookupJ, Option.or, lookupJ_optField_ne]
  · intro u
    rfl
  · exact ⟨rfl, rfl, rfl⟩

/-- C8 witness: the amended theorem applied at concrete inputs. -/
theorem C8_witness :
    (∃ req b, (confirm_dropoff ⟨"cid", "sid0"⟩ inp0 (fun _ => .exn "off")).2 = [req] ∧
       req.body = some b ∧
       lookupJ "sender_name" b =
         (if inp0.sender_name = "" then none else some (Json.str inp0.sender_name))) ∧
    (∃ req b, (get_pickup_quote ⟨"cid", "sid0"⟩
        { inp0 with pickup_addresses := [[("route_to_text", "1 Main St")]] }
        (fun _ => .exn "off")).2 = [req] ∧ req.body = some b ∧
       lookupJ "promo_code" b =
         (if ({ inp0 with pickup_addresses := [[("route_to_text", "1 Main St")]] } : ToolInputs).promo_code = ""
          then none
          else some (Json.str ({ inp0 with pickup_addresses := [[("route_to_text", "1 Main St")]] } : ToolInputs).promo_code))) ∧
    (∃ req b, (get_dropoff_quote ⟨"cid", "sid0"⟩ inp0 (fun _ => .exn "off")).2 = [req] ∧
       req.body = some b ∧
       lookupJ "route_desc" b = some (Json.str inp0.pickup_instructions)) ∧
    (∃ req b, (confirm_pickup ⟨"cid", "sid0"⟩ inp0 (fun _ => .exn "off")).2 = [req] ∧
       req.body = some b ∧
       lookupJ "routes" b = lookupJ "routes" (pickupRoutesOpt inp0.pickup_updates)) ∧
    pickupRoutesOpt (some [[("rec_name", "")]]) =
      [("routes", Json.arr [Json.obj [("rec_name", Json.str "")]])] := by
  refine ⟨?_, ?_, ?_, ?_, ?_⟩
  · obtain ⟨req, b, e1, e2, _, _, h5, _⟩ :=
      C8_amended.1 ⟨"cid", "sid0"⟩ inp0 (fun _ => .exn "off") (by decide) (by decide)
    exact ⟨req, b, e1, e2, h5⟩
  · obtain ⟨req, b, e1, e2, _, _, h5⟩ :=
      C8_amended.2.1 ⟨"cid", "sid0"⟩
        { inp0 with pickup_addresses := [[("route_to_text", "1 Main St")]] }
        (fun _ => .exn "off") (by decide) (by decide) (by decide) (by decide)
    exact ⟨req, b, e1, e2, h5⟩
  · obtain ⟨req, b, e1, e2, _, _, h5⟩ :=
      C8_amended.2.2.1 ⟨"cid", "sid0"⟩ inp0 (fun _ => .exn "off") (by decide) (by decide)
    exact ⟨req, b, e1, e2, h5⟩
  · obtain ⟨req, b, e1, e2, _, _, _, _, _, _, h9⟩ :=
      C8_amended.2.2.2.1 ⟨"cid", "sid0"⟩ inp0 (fun _ => .exn "off") (by decide) (by decide)
    exact ⟨req, b, e1, e2, h9⟩
  · exact C8_amended.2.2.2.2.1 ""
